import Mathlib

/-!
Verification of the Mizrahi disclosure/special-transactions validators.

This file gives a shallow embedding, in Lean 4, of the rule-evaluation and
exception-sampling core of the repository:

* the hierarchical code-taxonomy resolver (`get_full_code_description` and its
  helpers from `k.303 validation (Mizrahi_5)/disclosure_k303_validator.py`),
* the K.303 rule checkers (`check_1a_fund_completeness`,
  `check_1b_report_month_validity`, `check_2a_prev_month_comparison`,
  `check_2b_exposure_profile`, `check_3_combinations` from
  `disclosure_k303_validator.py` and its Mizrahi_5 variant),
* the stratified exception sampler (`smart_sample_exceptions` from
  `mizrahi_special_transactions.py`).

Modelling conventions:

* Python floats are modelled as exact rationals (`ℚ`); all concrete inputs in
  witnesses and counterexamples are chosen so that the corresponding IEEE-754
  computations are exact, keeping the model and the program in agreement there.
* Python strings are manipulated through their code-point lists (`String.data`)
  so that every definition reduces inside the kernel; Python's character-based
  slicing and `str.split()` semantics are mirrored directly.
* Python `dict`s (insertion-ordered) are modelled as association lists or
  first-occurrence key lists; Python `set`s are modelled by membership over
  lists, with explicit dedup where iteration order matters.
* The seeded `random.Random` generator is modelled abstractly: a *sampler* is
  any function `List α → Nat → List α`, and `ValidSampler` captures exactly the
  contract of `random.Random.sample` (a without-replacement draw: the result
  has the requested length and is a sub-permutation of the population).  A
  statement quantified over every `ValidSampler` covers every seed; a concrete
  `ValidSampler` exhibits one realizable draw sequence.
* Fallible parsing (`str.split` + `int(...)`) is modelled with `Option`.
-/

namespace PyStr

/-- Trim whitespace from both ends of a char list (Python `str.strip()`). -/
def trimChars (l : List Char) : List Char :=
  ((l.dropWhile Char.isWhitespace).reverse.dropWhile Char.isWhitespace).reverse

/-- Python `s.strip()`. -/
def strip (s : String) : String := ⟨trimChars s.data⟩

/-- Number of characters (Python `len(s)`; code points). -/
def strLen (s : String) : Nat := s.data.length

/-- Python slice `s[:n]` (first `n` characters). -/
def strTake (s : String) (n : Nat) : String := ⟨s.data.take n⟩

/-- Python `s.startswith(p)`. -/
def startsWith (s p : String) : Bool := p.data.isPrefixOf s.data

/-- Accumulate maximal whitespace-free words (helper for `split`). -/
def wordsAux (cur : List Char) : List Char → List String
  | [] => if cur.isEmpty then [] else [String.mk cur.reverse]
  | c :: cs =>
    if c.isWhitespace then
      if cur.isEmpty then wordsAux [] cs
      else String.mk cur.reverse :: wordsAux [] cs
    else wordsAux (c :: cur) cs

/-- Python `s.split()` with no argument: split on whitespace runs, dropping
empty fragments. -/
def split (s : String) : List String := wordsAux [] s.data

/-- Join a list of strings with a separator (Python `sep.join(ws)`). -/
def joinSep (sep : String) : List String → String
  | [] => ""
  | [w] => w
  | w :: ws => w ++ sep ++ joinSep sep ws

end PyStr

namespace Taxonomy

open PyStr

/-- `K303_CODE_INDEX.get(code, "")`: look a code up in the (data-given)
taxonomy table, returning `""` when absent. -/
def lookupDesc (idx : List (String × String)) (c : String) : String :=
  match idx.find? (fun p => p.1 = c) with
  | some p => p.2
  | none => ""

/-- The ancestor-prefix chain of a code: widths 2, 4, 6, 8, each included
when the code is at least that long (`get_full_code_description`,
`parent_codes`). -/
def parentCodes (code : String) : List String :=
  (if 2 ≤ strLen code then [strTake code 2] else []) ++
  (if 4 ≤ strLen code then [strTake code 4] else []) ++
  (if 6 ≤ strLen code then [strTake code 6] else []) ++
  (if 8 ≤ strLen code then [strTake code 8] else [])

/-- The overlap computed by the loop in `_merge_descriptions`: the loop tries
`i = 1, …, max_overlap` and keeps the last `i` for which the last `i` words of
`current` equal the first `i` words of `new_desc`. -/
def overlapAmount (cw nw : List String) : Nat :=
  (List.range (min cw.length nw.length + 1)).foldl
    (fun acc i =>
      if 1 ≤ i ∧ cw.drop (cw.length - i) = nw.take i then i else acc) 0

/-- `_merge_descriptions(current, new_desc)`. -/
def mergeDescriptions (current newDesc : String) : String :=
  if newDesc = "" then current
  else if current = "" then newDesc
  else
    let cw := split current
    let nw := split newDesc
    let overlap := overlapAmount cw nw
    if 0 < overlap then
      let remaining := nw.drop overlap
      if remaining ≠ [] then current ++ " " ++ joinSep " " remaining
      else current
    else current ++ " " ++ newDesc

/-- `_remove_duplicate_words(text)`: keep only the first occurrence of each
word. -/
def removeDuplicateWords (text : String) : String :=
  if text = "" then text
  else
    let words := split text
    let result := words.foldl
      (fun acc w => if w ∈ acc then acc else acc ++ [w]) []
    joinSep " " result

/-- `get_full_code_description(code)`, parameterised by the taxonomy table
(the module-level `K303_CODE_INDEX` dict is data).  Total by construction:
it returns a string on every input. -/
def get_full_code_description (idx : List (String × String)) (code : String) :
    String :=
  if code = "" then ""
  else
    let c := strip code
    let combined := (parentCodes c).foldl
      (fun combined parentCode =>
        let desc := lookupDesc idx parentCode
        if desc = "" then combined
        else mergeDescriptions combined desc) ""
    removeDuplicateWords combined

end Taxonomy

namespace Taxonomy

/-- The fold in `_merge_descriptions`' overlap search keeps the last matching
index, which is the greatest one; and the result is in range. -/
theorem range_foldl_if_max {Q : Nat → Prop} [DecidablePred Q] (n : Nat) :
    ((List.range n).foldl (fun acc i => if Q i then i else acc) 0 = 0 ∨
      Q ((List.range n).foldl (fun acc i => if Q i then i else acc) 0)) ∧
    ((List.range n).foldl (fun acc i => if Q i then i else acc) 0 = 0 ∨
      (List.range n).foldl (fun acc i => if Q i then i else acc) 0 < n) ∧
    (∀ j, j < n → Q j →
      j ≤ (List.range n).foldl (fun acc i => if Q i then i else acc) 0) := by
  induction n with
  | zero => simp
  | succ n ih =>
    rw [List.range_succ, List.foldl_append]
    simp only [List.foldl_cons, List.foldl_nil]
    by_cases hQ : Q n
    · rw [if_pos hQ]
      refine ⟨Or.inr hQ, ?_, ?_⟩
      · by_cases hn : n = 0
        · exact Or.inl hn
        · exact Or.inr (Nat.lt_succ_self n)
      · intro j hj _
        exact Nat.lt_succ_iff.mp hj
    · simp only [hQ, if_false]
      refine ⟨ih.1, ?_, ?_⟩
      · rcases ih.2.1 with h | h
        · exact Or.inl h
        · exact Or.inr (Nat.lt_succ_of_lt h)
      · intro j hj hQj
        have hjn : j < n := by
          rcases Nat.lt_succ_iff_lt_or_eq.mp hj with h | h
          · exact h
          · exact absurd (h ▸ hQj) hQ
        exact ih.2.2 j hjn hQj

theorem overlapAmount_le (cw nw : List String) :
    overlapAmount cw nw ≤ min cw.length nw.length := by
  unfold overlapAmount
  have h := range_foldl_if_max
    (Q := fun i => 1 ≤ i ∧ cw.drop (cw.length - i) = nw.take i)
    (min cw.length nw.length + 1)
  rcases h.2.1 with h0 | hlt
  · rw [h0]; exact Nat.zero_le _
  · exact Nat.lt_succ_iff.mp hlt

theorem overlapAmount_matches (cw nw : List String) :
    cw.drop (cw.length - overlapAmount cw nw) =
      nw.take (overlapAmount cw nw) := by
  unfold overlapAmount
  have h := range_foldl_if_max
    (Q := fun i => 1 ≤ i ∧ cw.drop (cw.length - i) = nw.take i)
    (min cw.length nw.length + 1)
  rcases h.1 with h0 | hQ
  · rw [h0]; simp
  · exact hQ.2

theorem overlapAmount_greatest (cw nw : List String) :
    ∀ j, j ≤ min cw.length nw.length →
      cw.drop (cw.length - j) = nw.take j → j ≤ overlapAmount cw nw := by
  intro j hj hmatch
  rcases Nat.eq_zero_or_pos j with h0 | hpos
  · rw [h0]; exact Nat.zero_le _
  · unfold overlapAmount
    have h := range_foldl_if_max
      (Q := fun i => 1 ≤ i ∧ cw.drop (cw.length - i) = nw.take i)
      (min cw.length nw.length + 1)
    exact h.2.2 j (Nat.lt_succ_of_le hj) ⟨hpos, hmatch⟩

/-- If every ancestor of a (stripped) code is absent from the taxonomy table,
the accumulated description stays empty. -/
theorem foldl_merge_of_all_empty (idx : List (String × String)) :
    ∀ ps : List String, (∀ p ∈ ps, lookupDesc idx p = "") →
      ps.foldl (fun combined parentCode =>
        let desc := lookupDesc idx parentCode
        if desc = "" then combined
        else mergeDescriptions combined desc) "" = "" := by
  intro ps
  induction ps with
  | nil => intro _; rfl
  | cons p ps ih =>
    intro h
    have hp : lookupDesc idx p = "" := h p (List.mem_cons_self p ps)
    simp only [List.foldl_cons, hp, if_pos rfl]
    exact ih (fun q hq => h q (List.mem_cons_of_mem p hq))

end Taxonomy

/-- **C8** (Taxonomy resolver).  `get_full_code_description` concatenates the
descriptions of a code's ancestor prefixes (widths 2,4,6,8 up to the code's
length — the `parentCodes` chain — skipping ancestors with no taxonomy entry)
left-to-right using the longest-overlap merge: the overlap actually trimmed,
`overlapAmount`, is the largest `k ≤ min (words A) (words D)` such that the
last `k` words of the accumulator equal the first `k` words of the next
description.  Ancestors described `"A B"` and `"B C"` resolve to `"A B C"`;
a code none of whose ancestors has an entry resolves to the empty string.
`get_full_code_description` is a total Lean function, so it never fails on
any input string. -/
theorem taxonomy_resolve_spec :
    (∀ idx code,
      (∀ p ∈ Taxonomy.parentCodes (PyStr.strip code),
        Taxonomy.lookupDesc idx p = "") →
      Taxonomy.get_full_code_description idx code = "") ∧
    (∀ cw nw : List String,
      Taxonomy.overlapAmount cw nw ≤ min cw.length nw.length ∧
      cw.drop (cw.length - Taxonomy.overlapAmount cw nw) =
        nw.take (Taxonomy.overlapAmount cw nw) ∧
      (∀ j, j ≤ min cw.length nw.length →
        cw.drop (cw.length - j) = nw.take j →
        j ≤ Taxonomy.overlapAmount cw nw)) ∧
    Taxonomy.get_full_code_description [("01", "A B"), ("0101", "B C")] "0101"
      = "A B C" := by
  refine ⟨?_, ?_, by decide⟩
  · intro idx code h
    unfold Taxonomy.get_full_code_description
    by_cases hc : code = ""
    · simp [hc]
    · simp only [hc, if_false]
      rw [Taxonomy.foldl_merge_of_all_empty idx _ h]
      rfl
  · intro cw nw
    exact ⟨Taxonomy.overlapAmount_le cw nw,
      Taxonomy.overlapAmount_matches cw nw,
      Taxonomy.overlapAmount_greatest cw nw⟩

/-- Witness for `taxonomy_resolve_spec`: concrete instantiations of its
hypothesis-bearing conjuncts. -/
theorem taxonomy_resolve_spec_witness :
    Taxonomy.get_full_code_description [("02", "D")] "99" = "" ∧
    1 ≤ Taxonomy.overlapAmount ["A", "B"] ["B", "C"] := by
  constructor
  · exact taxonomy_resolve_spec.1 [("02", "D")] "99" (by decide)
  · exact (taxonomy_resolve_spec.2.1 ["A", "B"] ["B", "C"]).2.2 1
      (by decide) (by decide)

namespace K303

/-- Stable insertion of `a` before the first element `b` with `le a b`. -/
def insertSorted {α : Type} (le : α → α → Bool) (a : α) : List α → List α
  | [] => [a]
  | b :: bs => if le a b then a :: b :: bs else b :: insertSorted le a bs

/-- Stable insertion sort (models Python's stable `sorted`). -/
def insertionSort {α : Type} (le : α → α → Bool) : List α → List α
  | [] => []
  | a :: as => insertSorted le a (insertionSort le as)

/-- `datetime.date`, restricted to the fields the checkers read. -/
structure Date where
  year : Int
  month : Int
  day : Int
deriving DecidableEq, Repr

/-- `DisclosureRow` from `disclosure_k303_validator.py`. -/
structure DisclosureRow where
  rowNum : Nat
  fundNo : Option Int
  fundName : Option String
  level1 : Option String
  level2 : Option String
  level3 : Option String
  level4 : Option String
  percentFromFund : Option ℚ
  extraData : Option String
  reportDate : Option Date
  recordNo : Option Int
  totalRecords : Option Int
  managerNo : Option String
deriving DecidableEq, Repr

/-- `if level and level.strip()`: the trimmed level value when the raw value
is a non-empty string with non-whitespace content. -/
def levelVal : Option String → Option String
  | none => none
  | some s => if PyStr.strip s = "" then none else some (PyStr.strip s)

/-- `DisclosureRow.effective_code`: the most granular non-empty level code. -/
def effectiveCode (r : DisclosureRow) : Option String :=
  match levelVal r.level4 with
  | some c => some c
  | none =>
    match levelVal r.level3 with
    | some c => some c
    | none =>
      match levelVal r.level2 with
      | some c => some c
      | none => levelVal r.level1

/-- `MutualFund` from the registry. -/
structure MutualFund where
  fundId : Int
  fundName : String
  trusteeName : String
  managerName : String
  exposureProfile : Option String
deriving DecidableEq, Repr

/-- `ExceptionRow` from `disclosure_k303_validator.py`; `extra_info` is an
association list with optional rational values. -/
structure ExceptionRow where
  checkId : String
  reason : String
  fundNo : Option Int := none
  fundName : Option String := none
  effectiveCode : Option String := none
  percentFromFund : Option ℚ := none
  reportDate : Option Date := none
  rowNum : Option Nat := none
  extraInfo : List (String × Option ℚ) := []
deriving DecidableEq, Repr

/-- `all_funds.get(fund_id)`: registry lookup (the registry dict is an
association list keyed by fund id). -/
def lookupFund (funds : List (Int × MutualFund)) (fundId : Int) :
    Option MutualFund :=
  match funds.find? (fun p => p.1 = fundId) with
  | some p => some p.2
  | none => none

/-- `row.fund_no in mizrahi_fund_ids` (a `None` fund number is never a
member of the id set). -/
def inScope (scope : List Int) (r : DisclosureRow) : Bool :=
  match r.fundNo with
  | some f => decide (f ∈ scope)
  | none => false

/-- Rendering of Python's `"%.2f" % x` float formatting used inside
human-readable reason texts.  The exact decimal rendering is immaterial to
every verified property (none inspects a formatted number), so the model
prints the reduced fraction. -/
def fmt2 (q : ℚ) : String := toString q.num ++ "/" ++ toString q.den

/-- Python `abs(x)` on rationals, written so that it evaluates by cases on
the sign (`pyAbs_eq_abs` identifies it with `|·|`). -/
def pyAbs (q : ℚ) : ℚ := if q < 0 then -q else q

/-- `python sorted` comparison on ints, as a Bool relation. -/
def intLe (a b : Int) : Bool := decide (a ≤ b)

/-- Python's `sorted(<set of ints>)`: distinct elements in ascending order. -/
def sortedDedupInts (l : List Int) : List Int := insertionSort intLe l.dedup

end K303

namespace K303

theorem insertSorted_perm {α : Type} (le : α → α → Bool) (a : α) :
    ∀ l : List α, (insertSorted le a l).Perm (a :: l) := by
  intro l
  induction l with
  | nil => simp [insertSorted]
  | cons b bs ih =>
    unfold insertSorted
    by_cases h : le a b
    · rw [if_pos h]
    · rw [if_neg h]
      exact (List.Perm.cons b ih).trans (List.Perm.swap a b bs)

theorem insertionSort_perm {α : Type} (le : α → α → Bool) :
    ∀ l : List α, (insertionSort le l).Perm l := by
  intro l
  induction l with
  | nil => exact List.Perm.refl _
  | cons a as ih =>
    unfold insertionSort
    exact (insertSorted_perm le a _).trans (List.Perm.cons a ih)

theorem mem_sortedDedupInts (l : List Int) (x : Int) :
    x ∈ sortedDedupInts l ↔ x ∈ l := by
  unfold sortedDedupInts
  rw [(insertionSort_perm intLe l.dedup).mem_iff, List.mem_dedup]

theorem nodup_sortedDedupInts (l : List Int) : (sortedDedupInts l).Nodup := by
  unfold sortedDedupInts
  exact ((insertionSort_perm intLe l.dedup).nodup_iff).mpr l.nodup_dedup

/-- `set(r.fund_no for r in disclosure_rows if r.fund_no is not None)`,
as a list whose membership is the set's membership. -/
def reportFundIds (rows : List DisclosureRow) : List Int :=
  rows.filterMap (fun r => r.fundNo)

/-- The first report row carrying the fund id supplies the name (the `break`
in the lookup loop of `check_1a_fund_completeness`). -/
def fundNameFromReport (rows : List DisclosureRow) (fundId : Int) : String :=
  match rows.find? (fun r => r.fundNo = some fundId) with
  | some r => r.fundName.getD ""
  | none => ""

/-- `missing_from_report = mizrahi_fund_ids - funds_in_report`, iterated in
sorted order. -/
def missingFromReport (rows : List DisclosureRow) (scope : List Int) : List Int :=
  sortedDedupInts (scope.filter (fun f => decide (f ∉ reportFundIds rows)))

/-- The "fund missing from report" exceptions of `check_1a_fund_completeness`. -/
def missingExcs1a (rows : List DisclosureRow) (scope : List Int)
    (allFunds : List (Int × MutualFund)) : List ExceptionRow :=
  (missingFromReport rows scope).map (fun fundId =>
    let fundName := match lookupFund allFunds fundId with
      | some fund => fund.fundName
      | none => ""
    ({ checkId := "1א", reason := "קרן חסרה בדוח", fundNo := some fundId,
       fundName := some fundName } : ExceptionRow))

/-- `extra_in_report = funds_in_report - mizrahi_fund_ids`, iterated in sorted
order. -/
def extraInReport (rows : List DisclosureRow) (scope : List Int) : List Int :=
  sortedDedupInts ((reportFundIds rows).filter (fun f => decide (f ∉ scope)))

/-- The "fund not in registry" exceptions of `check_1a_fund_completeness`
(only funds completely absent from the registry are flagged). -/
def extraExcs1a (rows : List DisclosureRow) (scope : List Int)
    (allFunds : List (Int × MutualFund)) : List ExceptionRow :=
  ((extraInReport rows scope).filter
      (fun f => decide (lookupFund allFunds f = none))).map
    (fun fundId =>
      ({ checkId := "1א", reason := "קרן לא קיימת ברשימת קרנות", fundNo := some fundId,
         fundName := some (fundNameFromReport rows fundId) } : ExceptionRow))

/-- `check_1a_fund_completeness(disclosure_rows, mizrahi_fund_ids, all_funds)`. -/
def check_1a_fund_completeness (rows : List DisclosureRow) (scope : List Int)
    (allFunds : List (Int × MutualFund)) : List ExceptionRow :=
  missingExcs1a rows scope allFunds ++ extraExcs1a rows scope allFunds

end K303

namespace K303

theorem mem_missingFromReport (rows : List DisclosureRow) (scope : List Int)
    (f : Int) :
    f ∈ missingFromReport rows scope ↔ f ∈ scope ∧ f ∉ reportFundIds rows := by
  unfold missingFromReport
  rw [mem_sortedDedupInts, List.mem_filter]
  simp

theorem nodup_missingFromReport (rows : List DisclosureRow) (scope : List Int) :
    (missingFromReport rows scope).Nodup := nodup_sortedDedupInts _

theorem mem_extraInReport (rows : List DisclosureRow) (scope : List Int)
    (f : Int) :
    f ∈ extraInReport rows scope ↔ f ∈ reportFundIds rows ∧ f ∉ scope := by
  unfold extraInReport
  rw [mem_sortedDedupInts, List.mem_filter]
  simp

theorem nodup_extraInReport (rows : List DisclosureRow) (scope : List Int) :
    (extraInReport rows scope).Nodup := nodup_sortedDedupInts _

/-- Counting occurrences of an equality predicate in a nodup int list. -/
theorem countP_beq_nodup (ids : List Int) (f : Int) (hnd : ids.Nodup) :
    ids.countP (fun i => i == f) = if f ∈ ids then 1 else 0 := by
  have hcnt : ids.countP (fun i => i == f) = ids.count f := rfl
  rw [hcnt]
  by_cases hf : f ∈ ids
  · rw [if_pos hf]
    exact List.count_eq_one_of_mem hnd hf
  · rw [if_neg hf]
    exact List.count_eq_zero_of_not_mem hf

end K303


/-- **C6** (Completeness checker).  For every record list, in-scope id set and
registry (with the in-scope ids drawn from the registry, as
`get_trustee_fund_ids` guarantees): exactly one "fund missing from report"
exception per in-scope fund id absent from the report's fund-id set and for no
other fund; exactly one "fund not in registry" exception per fund id present
in the report but absent from the registry entirely (so a fund present under a
different trustee — in the registry but out of scope — is never flagged); an
empty record list is not an error and yields the full in-scope set as
missing-fund exceptions. -/
theorem check1a_completeness (rows : List K303.DisclosureRow)
    (scope : List Int) (allFunds : List (Int × K303.MutualFund))
    (hsub : ∀ f ∈ scope, K303.lookupFund allFunds f ≠ none) :
    (∀ f : Int,
      (K303.check_1a_fund_completeness rows scope allFunds).countP
          (fun e => e.reason == "קרן חסרה בדוח" && e.fundNo == some f) =
        if f ∈ scope ∧ f ∉ K303.reportFundIds rows then 1 else 0) ∧
    (∀ f : Int,
      (K303.check_1a_fund_completeness rows scope allFunds).countP
          (fun e => e.reason == "קרן לא קיימת ברשימת קרנות" && e.fundNo == some f) =
        if f ∈ K303.reportFundIds rows ∧ K303.lookupFund allFunds f = none
        then 1 else 0) ∧
    (rows = [] →
      (K303.check_1a_fund_completeness rows scope allFunds).map
          (fun e => e.fundNo) = (K303.sortedDedupInts scope).map some ∧
      ∀ e ∈ K303.check_1a_fund_completeness rows scope allFunds,
        e.reason = "קרן חסרה בדוח") := by
  refine ⟨?_, ?_, ?_⟩
  · intro f
    unfold K303.check_1a_fund_completeness
    rw [List.countP_append]
    have hextra : (K303.extraExcs1a rows scope allFunds).countP
        (fun e => e.reason == "קרן חסרה בדוח" && e.fundNo == some f) = 0 := by
      rw [List.countP_eq_zero]
      intro e he
      unfold K303.extraExcs1a at he
      obtain ⟨i, _, rfl⟩ := List.mem_map.mp he
      simp only [Bool.and_eq_true, beq_iff_eq]
      rintro ⟨h1, _⟩
      exact absurd h1 (by decide)
    have hmiss : (K303.missingExcs1a rows scope allFunds).countP
        (fun e => e.reason == "קרן חסרה בדוח" && e.fundNo == some f) =
        if f ∈ scope ∧ f ∉ K303.reportFundIds rows then 1 else 0 := by
      unfold K303.missingExcs1a
      rw [List.countP_map]
      have hq : ∀ i ∈ K303.missingFromReport rows scope,
          ((fun (e : K303.ExceptionRow) =>
              e.reason == "קרן חסרה בדוח" && e.fundNo == some f) ∘
            (fun fundId =>
              let fundName := match K303.lookupFund allFunds fundId with
                | some fund => fund.fundName
                | none => ""
              ({ checkId := "1א", reason := "קרן חסרה בדוח",
                 fundNo := some fundId,
                 fundName := some fundName } : K303.ExceptionRow))) i = true ↔
          (i == f) = true := by
        intro i _
        simp
      rw [List.countP_congr hq,
        K303.countP_beq_nodup _ f (K303.nodup_missingFromReport rows scope)]
      exact if_congr (K303.mem_missingFromReport rows scope f) rfl rfl
    rw [hextra, hmiss]
    omega
  · intro f
    unfold K303.check_1a_fund_completeness
    rw [List.countP_append]
    have hmiss : (K303.missingExcs1a rows scope allFunds).countP
        (fun e => e.reason == "קרן לא קיימת ברשימת קרנות" && e.fundNo == some f)
        = 0 := by
      rw [List.countP_eq_zero]
      intro e he
      unfold K303.missingExcs1a at he
      obtain ⟨i, _, rfl⟩ := List.mem_map.mp he
      simp only [Bool.and_eq_true, beq_iff_eq]
      rintro ⟨h1, _⟩
      exact absurd h1 (by decide)
    have hextra : (K303.extraExcs1a rows scope allFunds).countP
        (fun e => e.reason == "קרן לא קיימת ברשימת קרנות" && e.fundNo == some f)
        = if f ∈ K303.reportFundIds rows ∧ K303.lookupFund allFunds f = none
          then 1 else 0 := by
      unfold K303.extraExcs1a
      rw [List.countP_map]
      have hq : ∀ i ∈ (K303.extraInReport rows scope).filter
          (fun f => decide (K303.lookupFund allFunds f = none)),
          ((fun (e : K303.ExceptionRow) =>
              e.reason == "קרן לא קיימת ברשימת קרנות" && e.fundNo == some f) ∘
            (fun fundId =>
              ({ checkId := "1א", reason := "קרן לא קיימת ברשימת קרנות",
                 fundNo := some fundId,
                 fundName := some (K303.fundNameFromReport rows fundId) } :
                K303.ExceptionRow))) i = true ↔ (i == f) = true := by
        intro i _
        simp
      rw [List.countP_congr hq]
      have hnd : ((K303.extraInReport rows scope).filter
          (fun f => decide (K303.lookupFund allFunds f = none))).Nodup :=
        (K303.nodup_extraInReport rows scope).filter _
      rw [K303.countP_beq_nodup _ f hnd]
      have hmem : f ∈ (K303.extraInReport rows scope).filter
          (fun f => decide (K303.lookupFund allFunds f = none)) ↔
          f ∈ K303.reportFundIds rows ∧ K303.lookupFund allFunds f = none := by
        rw [List.mem_filter, K303.mem_extraInReport]
        constructor
        · rintro ⟨⟨h1, _⟩, h3⟩
          exact ⟨h1, by simpa using h3⟩
        · rintro ⟨h1, h2⟩
          refine ⟨⟨h1, fun hscope => ?_⟩, by simpa using h2⟩
          exact hsub f hscope h2
      exact if_congr hmem rfl rfl
    rw [hmiss, hextra]
    omega
  · intro hrows
    subst hrows
    have hextra : K303.extraExcs1a [] scope allFunds = [] := rfl
    have hfilter : scope.filter
        (fun f => decide (f ∉ K303.reportFundIds ([] : List K303.DisclosureRow)))
        = scope := by
      rw [List.filter_eq_self]
      intro a _
      simp [K303.reportFundIds]
    have hmissing : K303.missingFromReport ([] : List K303.DisclosureRow) scope
        = K303.sortedDedupInts scope := by
      unfold K303.missingFromReport
      rw [hfilter]
    constructor
    · unfold K303.check_1a_fund_completeness
      rw [hextra, List.append_nil]
      unfold K303.missingExcs1a
      rw [hmissing, List.map_map]
      apply List.map_congr_left
      intro i _
      rfl
    · intro e he
      unfold K303.check_1a_fund_completeness at he
      rw [hextra, List.append_nil] at he
      unfold K303.missingExcs1a at he
      obtain ⟨i, _, rfl⟩ := List.mem_map.mp he
      rfl

/-- Witness for `check1a_completeness`: a registry with in-scope funds 1 and 2,
a report covering only fund 1 plus an unregistered fund 7. -/
theorem check1a_completeness_witness :
    ((K303.check_1a_fund_completeness
        [{ rowNum := 2, fundNo := some 1, fundName := some "A",
           level1 := none, level2 := none, level3 := none, level4 := none,
           percentFromFund := none, extraData := none, reportDate := none,
           recordNo := none, totalRecords := none, managerNo := none },
         { rowNum := 3, fundNo := some 7, fundName := some "B",
           level1 := none, level2 := none, level3 := none, level4 := none,
           percentFromFund := none, extraData := none, reportDate := none,
           recordNo := none, totalRecords := none, managerNo := none }]
        [1, 2]
        [(1, ⟨1, "A", "T", "M", none⟩), (2, ⟨2, "C", "T", "M", none⟩)]).countP
      (fun e => e.reason == "קרן חסרה בדוח" && e.fundNo == some 2) = 1) ∧
    ((K303.check_1a_fund_completeness
        [{ rowNum := 2, fundNo := some 1, fundName := some "A",
           level1 := none, level2 := none, level3 := none, level4 := none,
           percentFromFund := none, extraData := none, reportDate := none,
           recordNo := none, totalRecords := none, managerNo := none },
         { rowNum := 3, fundNo := some 7, fundName := some "B",
           level1 := none, level2 := none, level3 := none, level4 := none,
           percentFromFund := none, extraData := none, reportDate := none,
           recordNo := none, totalRecords := none, managerNo := none }]
        [1, 2]
        [(1, ⟨1, "A", "T", "M", none⟩), (2, ⟨2, "C", "T", "M", none⟩)]).countP
      (fun e => e.reason == "קרן לא קיימת ברשימת קרנות" && e.fundNo == some 7)
      = 1) := by
  constructor
  · rw [(check1a_completeness _ _ _ (by decide)).1 2]
    decide
  · rw [(check1a_completeness _ _ _ (by decide)).2.1 7]
    decide

namespace K303

/-- Parse an optionally signed decimal (the digits of Python `int(...)`). -/
def digitsToNat : List Char → Nat → Option Nat
  | [], acc => some acc
  | c :: cs, acc =>
    if c.isDigit then digitsToNat cs (acc * 10 + (c.toNat - 48)) else none

/-- Python `int(s)` on a decimal string (whitespace-tolerant, optional sign);
`none` models the `ValueError`. -/
def pyInt : String → Option Int
  | s =>
    match PyStr.trimChars s.data with
    | [] => none
    | '-' :: rest =>
      match rest with
      | [] => none
      | _ => (digitsToNat rest 0).map (fun n => -(n : Int))
    | '+' :: rest =>
      match rest with
      | [] => none
      | _ => (digitsToNat rest 0).map (fun n => (n : Int))
    | l => (digitsToNat l 0).map (fun n => (n : Int))

/-- Split a char list on a separator character, keeping empty fragments
(Python `s.split("-")`). -/
def splitOnChar (sep : Char) : List Char → List (List Char)
  | [] => [[]]
  | c :: cs =>
    if c = sep then [] :: splitOnChar sep cs
    else
      match splitOnChar sep cs with
      | [] => [[c]]
      | w :: ws => (c :: w) :: ws

/-- `year, month = expected_month.split("-"); int(year); int(month)`:
`none` models the `ValueError` on a malformed period string. -/
def parseExpectedMonth (s : String) : Option (Int × Int) :=
  match splitOnChar '-' s.data with
  | [y, m] =>
    match pyInt (String.mk y), pyInt (String.mk m) with
    | some a, some b => some (a, b)
    | _, _ => none
  | _ => none

/-- The exceptions contributed by one row in `check_1b_report_month_validity`:
missing report date, or a date whose year or month differs from the expected
period. -/
def check1bRow (expectedMonth : String) (scope : List Int)
    (expectedYear expectedMonthNum : Int) (row : DisclosureRow) :
    List ExceptionRow :=
  if inScope scope row then
    match row.reportDate with
    | none =>
      [{ checkId := "1ב", reason := "תאריך דוח חסר", fundNo := row.fundNo,
         fundName := row.fundName, effectiveCode := effectiveCode row,
         rowNum := some row.rowNum }]
    | some d =>
      if d.year ≠ expectedYear ∨ d.month ≠ expectedMonthNum then
        [{ checkId := "1ב",
           reason := "תאריך לא תואם (צפוי: " ++ expectedMonth ++ ")",
           fundNo := row.fundNo, fundName := row.fundName,
           effectiveCode := effectiveCode row, reportDate := some d,
           rowNum := some row.rowNum }]
      else []
  else []

/-- `check_1b_report_month_validity(disclosure_rows, expected_month,
mizrahi_fund_ids)`; `none` models the `ValueError` raised while parsing a
malformed `expected_month`. -/
def check_1b_report_month_validity (rows : List DisclosureRow)
    (expectedMonth : String) (scope : List Int) :
    Option (List ExceptionRow) :=
  match parseExpectedMonth expectedMonth with
  | none => none
  | some (ey, em) =>
    some (rows.foldl
      (fun acc row => acc ++ check1bRow expectedMonth scope ey em row) [])

/-- The exception-appending loop of each checker is a `flatMap`. -/
theorem foldl_append_eq_flatMap {α β : Type} (f : α → List β) :
    ∀ (l : List α) (init : List β),
      l.foldl (fun acc a => acc ++ f a) init = init ++ l.flatMap f := by
  intro l
  induction l with
  | nil => intro init; simp
  | cons a as ih =>
    intro init
    rw [List.foldl_cons, ih (init ++ f a), List.flatMap_cons,
      List.append_assoc]

end K303

namespace K303

theorem check1bRow_rowNum (expectedMonth : String) (scope : List Int)
    (ey em : Int) (r : DisclosureRow) :
    ∀ e ∈ check1bRow expectedMonth scope ey em r,
      e.rowNum = some r.rowNum := by
  intro e he
  unfold check1bRow at he
  by_cases h : inScope scope r
  · rw [if_pos h] at he
    cases hd : r.reportDate with
    | none =>
      simp only [hd, List.mem_singleton] at he
      rw [he]
    | some d =>
      simp only [hd] at he
      by_cases hm : d.year ≠ ey ∨ d.month ≠ em
      · rw [if_pos hm] at he
        simp only [List.mem_singleton] at he
        rw [he]
      · rw [if_neg hm] at he
        exact absurd he (List.not_mem_nil e)
  · rw [if_neg h] at he
    exact absurd he (List.not_mem_nil e)

theorem filter_flatMap_check1b (expectedMonth : String) (scope : List Int)
    (ey em : Int) :
    ∀ rows : List DisclosureRow, (rows.map (fun r => r.rowNum)).Nodup →
      ∀ row ∈ rows,
        (rows.flatMap (check1bRow expectedMonth scope ey em)).filter
            (fun e => e.rowNum == some row.rowNum) =
          check1bRow expectedMonth scope ey em row := by
  intro rows
  induction rows with
  | nil => intro _ row hrow; exact absurd hrow (List.not_mem_nil row)
  | cons r rest ih =>
    intro hnd row hrow
    rw [List.map_cons, List.nodup_cons] at hnd
    rw [List.flatMap_cons, List.filter_append]
    rcases List.mem_cons.mp hrow with hr | hr
    · subst hr
      have h1 : (check1bRow expectedMonth scope ey em row).filter
          (fun e => e.rowNum == some row.rowNum) =
          check1bRow expectedMonth scope ey em row := by
        rw [List.filter_eq_self]
        intro e he
        rw [check1bRow_rowNum expectedMonth scope ey em row e he]
        simp
      have h2 : (rest.flatMap (check1bRow expectedMonth scope ey em)).filter
          (fun e => e.rowNum == some row.rowNum) = [] := by
        rw [List.filter_eq_nil_iff]
        intro e he
        obtain ⟨r', hr', he'⟩ := List.mem_flatMap.mp he
        rw [check1bRow_rowNum expectedMonth scope ey em r' e he']
        simp only [beq_iff_eq, Option.some.injEq]
        intro hcontra
        exact hnd.1 (hcontra ▸ List.mem_map_of_mem (fun r => r.rowNum) hr')
      rw [h1, h2, List.append_nil]
    · have h1 : (check1bRow expectedMonth scope ey em r).filter
          (fun e => e.rowNum == some row.rowNum) = [] := by
        rw [List.filter_eq_nil_iff]
        intro e he
        rw [check1bRow_rowNum expectedMonth scope ey em r e he]
        simp only [beq_iff_eq, Option.some.injEq]
        intro hcontra
        exact hnd.1 (hcontra ▸ List.mem_map_of_mem (fun r => r.rowNum) hr)
      rw [h1, List.nil_append]
      exact ih hnd.2 row hr

end K303

/-- **C7**, amended (Temporal validity checker).  For every in-scope record: a
record with no report date yields exactly one "missing period" exception, and
a record whose date differs from the expected period in year or month yields
exactly one "period mismatch" exception; the mismatch exception embeds the
expected period in its reason text and carries the actual period in its
`report_date` field, while its `extra_info` map is left empty (the original
claim's requirement that `extra_info` carry the expected and actual periods
does not hold — see the counterexample). -/
theorem check1b_temporal_validity (rows : List K303.DisclosureRow)
    (expectedMonth : String) (scope : List Int) (ey em : Int)
    (hparse : K303.parseExpectedMonth expectedMonth = some (ey, em))
    (hnodup : (rows.map (fun r => r.rowNum)).Nodup) :
    K303.check_1b_report_month_validity rows expectedMonth scope =
      some (rows.flatMap (K303.check1bRow expectedMonth scope ey em)) ∧
    ∀ row ∈ rows, K303.inScope scope row = true →
      (row.reportDate = none →
        (rows.flatMap (K303.check1bRow expectedMonth scope ey em)).filter
            (fun e => e.rowNum == some row.rowNum) =
          [{ checkId := "1ב", reason := "תאריך דוח חסר", fundNo := row.fundNo,
             fundName := row.fundName,
             effectiveCode := K303.effectiveCode row,
             rowNum := some row.rowNum }]) ∧
      (∀ d, row.reportDate = some d → (d.year ≠ ey ∨ d.month ≠ em) →
        (rows.flatMap (K303.check1bRow expectedMonth scope ey em)).filter
            (fun e => e.rowNum == some row.rowNum) =
          [{ checkId := "1ב",
             reason := "תאריך לא תואם (צפוי: " ++ expectedMonth ++ ")",
             fundNo := row.fundNo, fundName := row.fundName,
             effectiveCode := K303.effectiveCode row, reportDate := some d,
             rowNum := some row.rowNum, extraInfo := [] }]) := by
  constructor
  · unfold K303.check_1b_report_month_validity
    simp only [hparse]
    rw [K303.foldl_append_eq_flatMap, List.nil_append]
  · intro row hrow hscope
    have hfilter := K303.filter_flatMap_check1b expectedMonth scope ey em
      rows hnodup row hrow
    constructor
    · intro hdate
      rw [hfilter]
      unfold K303.check1bRow
      rw [if_pos hscope]
      simp only [hdate]
    · intro d hdate hmism
      rw [hfilter]
      unfold K303.check1bRow
      rw [if_pos hscope]
      simp only [hdate]
      rw [if_pos hmism]

/-- Witness for `check1b_temporal_validity`: one in-scope record with no
report date and one with a January date checked against `"2024-02"`. -/
theorem check1b_temporal_validity_witness :
    K303.check_1b_report_month_validity
        [{ rowNum := 2, fundNo := some 5, fundName := some "F",
           level1 := some "01", level2 := none, level3 := none, level4 := none,
           percentFromFund := some 10, extraData := none, reportDate := none,
           recordNo := none, totalRecords := none, managerNo := none },
         { rowNum := 3, fundNo := some 5, fundName := some "F",
           level1 := some "03", level2 := none, level3 := none, level4 := none,
           percentFromFund := some 20, extraData := none,
           reportDate := some ⟨2024, 1, 31⟩,
           recordNo := none, totalRecords := none, managerNo := none }]
        "2024-02" [5] =
      some
        [{ checkId := "1ב", reason := "תאריך דוח חסר", fundNo := some 5,
           fundName := some "F", effectiveCode := some "01",
           rowNum := some 2 },
         { checkId := "1ב", reason := "תאריך לא תואם (צפוי: 2024-02)",
           fundNo := some 5, fundName := some "F",
           effectiveCode := some "03", reportDate := some ⟨2024, 1, 31⟩,
           rowNum := some 3, extraInfo := [] }] := by
  rw [(check1b_temporal_validity _ "2024-02" [5] 2024 2 (by decide)
    (by decide)).1]
  decide

/-- Counterexample to **C7** as stated: a mismatching in-scope record produces
a "period mismatch" exception whose `extra_info` map is empty — it does not
carry the expected or the actual period there (the expected period appears
only inside the reason text, the actual date only in `report_date`). -/
theorem check1b_extraInfo_empty_cx :
    K303.check_1b_report_month_validity
        [{ rowNum := 2, fundNo := some 5, fundName := some "F",
           level1 := some "01", level2 := none, level3 := none, level4 := none,
           percentFromFund := some 10, extraData := none,
           reportDate := some ⟨2024, 1, 15⟩,
           recordNo := none, totalRecords := none, managerNo := none }]
        "2024-02" [5] =
      some
        [{ checkId := "1ב", reason := "תאריך לא תואם (צפוי: 2024-02)",
           fundNo := some 5, fundName := some "F",
           effectiveCode := some "01", reportDate := some ⟨2024, 1, 15⟩,
           rowNum := some 2, extraInfo := [] }] := by
  decide

namespace K303

/-- One row's contribution to a period's lookup map in
`check_2a_prev_month_comparison.build_lookup`: in-scope fund, non-empty
effective code, present percentage. -/
def rowContrib (scope : List Int) (r : DisclosureRow) :
    Option ((Int × String) × ℚ) :=
  match r.fundNo, effectiveCode r, r.percentFromFund with
  | some f, some c, some p =>
    if f ∈ scope then some ((f, c), p) else none
  | _, _, _ => none

/-- The percentages of all rows sharing a `(fund_no, effective_code)` key. -/
def keyVals (rows : List DisclosureRow) (scope : List Int)
    (key : Int × String) : List ℚ :=
  rows.filterMap (fun r =>
    match rowContrib scope r with
    | some (k, p) => if k = key then some p else none
    | none => none)

/-- `build_lookup(rows, fund_ids).get(key)`: the sum of the percentages of
all rows sharing the key, or `None` when no row carries it. -/
def lookupVal (rows : List DisclosureRow) (scope : List Int)
    (key : Int × String) : Option ℚ :=
  if keyVals rows scope key = [] then none
  else some (keyVals rows scope key).sum

/-- The keys contributed by a period's rows (`lookup.keys()`, as a list whose
membership is the dict's key set). -/
def lookupKeys (rows : List DisclosureRow) (scope : List Int) :
    List (Int × String) :=
  rows.filterMap (fun r => (rowContrib scope r).map (fun kp => kp.1))

/-- Code-point lexicographic `<` on strings (Python string comparison). -/
def charListLt : List Char → List Char → Bool
  | [], [] => false
  | [], _ :: _ => true
  | _ :: _, [] => false
  | a :: as, b :: bs =>
    if a.val < b.val then true
    else if a.val = b.val then charListLt as bs
    else false

/-- Python tuple comparison on `(fund_no, code)` keys, as `≤`. -/
def keyLe (a b : Int × String) : Bool :=
  if a.1 < b.1 then true
  else if a.1 = b.1 then (charListLt a.2.data b.2.data || a.2 == b.2)
  else false

/-- `sorted(set(current_lookup.keys()) | set(prev_lookup.keys()))`. -/
def sortedKeys (cur prev : List DisclosureRow) (scope : List Int) :
    List (Int × String) :=
  insertionSort keyLe ((lookupKeys cur scope ++ lookupKeys prev scope).dedup)

/-- A row that assigns into the `fund_names` dict of
`check_2a_prev_month_comparison` (`if row.fund_no and row.fund_name`:
Python truthiness excludes fund number 0 and the empty name). -/
def truthyName (r : DisclosureRow) : Option (Int × String) :=
  match r.fundNo, r.fundName with
  | some f, some n => if f ≠ 0 ∧ n ≠ "" then some (f, n) else none
  | _, _ => none

/-- `fund_names.get(fund_no)`: the last current-period assignment wins; a
previous-period row only fills a fund id with no current-period name. -/
def fundNames2a (cur prev : List DisclosureRow) (f : Int) : Option String :=
  match cur.reverse.find? (fun r =>
      match truthyName r with
      | some (g, _) => g == f
      | none => false) with
  | some r =>
    match truthyName r with
    | some (_, n) => some n
    | none => none
  | none =>
    match prev.find? (fun r =>
        match truthyName r with
        | some (g, _) => g == f
        | none => false) with
    | some r =>
      match truthyName r with
      | some (_, n) => some n
      | none => none
    | none => none

/-- The exceptions emitted for one key of the union in
`check_2a_prev_month_comparison`: code disappeared, code added, or a
deviation strictly above the fixed 10-point threshold. -/
def check2aKeyExc (cur prev : List DisclosureRow) (scope : List Int)
    (key : Int × String) : List ExceptionRow :=
  match lookupVal cur scope key, lookupVal prev scope key with
  | none, some p =>
    [{ checkId := "2א", reason := "קוד נעלם (היה: " ++ fmt2 p ++ "%)",
       fundNo := some key.1, fundName := fundNames2a cur prev key.1,
       effectiveCode := some key.2, percentFromFund := none,
       extraInfo := [("prev_pct", some p)] }]
  | some c, none =>
    [{ checkId := "2א", reason := "קוד חדש (כעת: " ++ fmt2 c ++ "%)",
       fundNo := some key.1, fundName := fundNames2a cur prev key.1,
       effectiveCode := some key.2, percentFromFund := some c,
       extraInfo := [("prev_pct", none)] }]
  | some c, some p =>
    if pyAbs (c - p) > 10 then
      [{ checkId := "2א",
         reason := "סטייה > 10% (שינוי: " ++ fmt2 (pyAbs (c - p)) ++ "%)",
         fundNo := some key.1, fundName := fundNames2a cur prev key.1,
         effectiveCode := some key.2, percentFromFund := some c,
         extraInfo := [("prev_pct", some p), ("delta", some (pyAbs (c - p)))] }]
    else []
  | none, none => []

/-- `check_2a_prev_month_comparison(current_rows, prev_rows,
mizrahi_fund_ids)`. -/
def check_2a_prev_month_comparison (cur prev : List DisclosureRow)
    (scope : List Int) : List ExceptionRow :=
  (sortedKeys cur prev scope).foldl
    (fun acc key => acc ++ check2aKeyExc cur prev scope key) []

end K303

namespace K303

theorem check2aKeyExc_fields (cur prev : List DisclosureRow)
    (scope : List Int) (key : Int × String) :
    ∀ e ∈ check2aKeyExc cur prev scope key,
      e.fundNo = some key.1 ∧ e.effectiveCode = some key.2 := by
  intro e he
  unfold check2aKeyExc at he
  cases hc : lookupVal cur scope key with
  | none =>
    cases hp : lookupVal prev scope key with
    | none => simp [hc, hp] at he
    | some p =>
      simp only [hc, hp, List.mem_singleton] at he
      rw [he]
      exact ⟨rfl, rfl⟩
  | some c =>
    cases hp : lookupVal prev scope key with
    | none =>
      simp only [hc, hp, List.mem_singleton] at he
      rw [he]
      exact ⟨rfl, rfl⟩
    | some p =>
      simp only [hc, hp] at he
      by_cases hd : pyAbs (c - p) > 10
      · rw [if_pos hd] at he
        simp only [List.mem_singleton] at he
        rw [he]
        exact ⟨rfl, rfl⟩
      · rw [if_neg hd] at he
        exact absurd he (List.not_mem_nil e)

theorem countP_flatMap_keyed (g : Int × String → List ExceptionRow)
    (hg : ∀ k, ∀ e ∈ g k, e.fundNo = some k.1 ∧ e.effectiveCode = some k.2)
    (f : Int) (c : String) :
    ∀ ks : List (Int × String), ks.Nodup →
      (ks.flatMap g).countP
          (fun e => e.fundNo == some f && e.effectiveCode == some c) =
        if (f, c) ∈ ks then (g (f, c)).length else 0 := by
  intro ks
  induction ks with
  | nil => intro _; simp
  | cons k rest ih =>
    intro hnd
    rw [List.nodup_cons] at hnd
    rw [List.flatMap_cons, List.countP_append, ih hnd.2]
    by_cases hk : k = (f, c)
    · have hcnt : (g k).countP
          (fun e => e.fundNo == some f && e.effectiveCode == some c) =
          (g k).length := by
        rw [List.countP_eq_length]
        intro e he
        obtain ⟨h1, h2⟩ := hg k e he
        rw [hk] at h1 h2
        simp [h1, h2]
      have hnotin : (f, c) ∉ rest := by
        rw [← hk]; exact hnd.1
      rw [hcnt, hk, if_neg hnotin]
      simp
    · have hcnt : (g k).countP
          (fun e => e.fundNo == some f && e.effectiveCode == some c) = 0 := by
        rw [List.countP_eq_zero]
        intro e he
        obtain ⟨h1, h2⟩ := hg k e he
        simp only [h1, h2, Bool.and_eq_true, beq_iff_eq, Option.some.injEq]
        rintro ⟨hf, hc⟩
        exact hk (Prod.ext hf hc)
      rw [hcnt]
      have hmem : ((f, c) ∈ k :: rest) ↔ ((f, c) ∈ rest) := by
        rw [List.mem_cons]
        constructor
        · rintro (h | h)
          · exact absurd h.symm hk
          · exact h
        · exact Or.inr
      rw [if_congr hmem rfl rfl]
      omega

theorem mem_lookupKeys (rows : List DisclosureRow) (scope : List Int)
    (key : Int × String) :
    key ∈ lookupKeys rows scope ↔ keyVals rows scope key ≠ [] := by
  constructor
  · intro h
    obtain ⟨r, hr, hmap⟩ := List.mem_filterMap.mp h
    cases hrc : rowContrib scope r with
    | none => rw [hrc] at hmap; exact absurd hmap (by simp)
    | some kp =>
      obtain ⟨k, p⟩ := kp
      rw [hrc] at hmap
      simp at hmap
      have hp : p ∈ keyVals rows scope key := by
        apply List.mem_filterMap.mpr
        refine ⟨r, hr, ?_⟩
        rw [hrc]
        simp [hmap]
      exact List.ne_nil_of_mem hp
  · intro h
    obtain ⟨q, hq⟩ := List.exists_mem_of_ne_nil _ h
    obtain ⟨r, hr, hmatch⟩ := List.mem_filterMap.mp hq
    cases hrc : rowContrib scope r with
    | none => rw [hrc] at hmatch; exact absurd hmatch (by simp)
    | some kp =>
      rw [hrc] at hmatch
      apply List.mem_filterMap.mpr
      refine ⟨r, hr, ?_⟩
      rw [hrc]
      obtain ⟨k, p⟩ := kp
      by_cases hk : k = key
      · subst hk; simp
      · simp [hk] at hmatch

theorem lookupVal_ne_none (rows : List DisclosureRow) (scope : List Int)
    (key : Int × String) :
    lookupVal rows scope key ≠ none ↔ keyVals rows scope key ≠ [] := by
  unfold lookupVal
  by_cases h : keyVals rows scope key = []
  · simp [h]
  · simp [h]

theorem mem_sortedKeys (cur prev : List DisclosureRow) (scope : List Int)
    (key : Int × String) :
    key ∈ sortedKeys cur prev scope ↔
      (lookupVal cur scope key ≠ none ∨ lookupVal prev scope key ≠ none) := by
  unfold sortedKeys
  rw [(insertionSort_perm keyLe _).mem_iff, List.mem_dedup, List.mem_append,
    mem_lookupKeys, mem_lookupKeys, lookupVal_ne_none, lookupVal_ne_none]

theorem nodup_sortedKeys (cur prev : List DisclosureRow) (scope : List Int) :
    (sortedKeys cur prev scope).Nodup := by
  unfold sortedKeys
  exact ((insertionSort_perm keyLe _).nodup_iff).mpr (List.nodup_dedup _)

theorem check2aKeyExc_length (cur prev : List DisclosureRow)
    (scope : List Int) (key : Int × String) :
    (check2aKeyExc cur prev scope key).length =
      match lookupVal cur scope key, lookupVal prev scope key with
      | some cv, some pv => if pyAbs (cv - pv) > 10 then 1 else 0
      | some _, none => 1
      | none, some _ => 1
      | none, none => 0 := by
  unfold check2aKeyExc
  cases hc : lookupVal cur scope key with
  | none =>
    cases hp : lookupVal prev scope key with
    | none => rfl
    | some p => rfl
  | some c =>
    cases hp : lookupVal prev scope key with
    | none => rfl
    | some p =>
      by_cases hd : pyAbs (c - p) > 10 <;> simp [hd]

end K303

/-- `pyAbs` agrees with the mathematical absolute value. -/
theorem pyAbs_eq_abs (q : ℚ) : K303.pyAbs q = |q| := by
  unfold K303.pyAbs
  by_cases h : q < 0
  · rw [if_pos h, abs_of_neg h]
  · rw [if_neg h, abs_of_nonneg (le_of_not_lt h)]

/-- **C5** (Cross-period delta comparator).  For every pair of record lists
and in-scope set, each period reduces to a map from `(fund_id,
effective_code)` to the sum of values over records sharing the key
(`lookupVal`); over the union of keys, a key only in current yields exactly
one "new code" exception with `prev_pct` recorded as null, a key only in
previous yields exactly one "code disappeared" exception carrying the
previous value, and a key in both yields exactly one "deviation" exception
iff `|current − previous|` is strictly greater than 10 — so previous 50 with
current 60 yields none while current 60.01 yields exactly one (see the
witness); `pyAbs_eq_abs` identifies the model's `pyAbs` with `|·|`. -/
theorem check2a_delta_comparator (cur prev : List K303.DisclosureRow)
    (scope : List Int) (f : Int) (c : String) :
    ((K303.check_2a_prev_month_comparison cur prev scope).countP
        (fun e => e.fundNo == some f && e.effectiveCode == some c) =
      match K303.lookupVal cur scope (f, c),
          K303.lookupVal prev scope (f, c) with
      | some cv, some pv => if K303.pyAbs (cv - pv) > 10 then 1 else 0
      | some _, none => 1
      | none, some _ => 1
      | none, none => 0) ∧
    (∀ e ∈ K303.check_2a_prev_month_comparison cur prev scope,
      e.fundNo = some f → e.effectiveCode = some c →
      e.extraInfo =
        match K303.lookupVal cur scope (f, c),
            K303.lookupVal prev scope (f, c) with
        | some cv, some pv =>
          [("prev_pct", some pv), ("delta", some (K303.pyAbs (cv - pv)))]
        | some _, none => [("prev_pct", (none : Option ℚ))]
        | none, some pv => [("prev_pct", some pv)]
        | none, none => []) := by
  have hflat : K303.check_2a_prev_month_comparison cur prev scope =
      (K303.sortedKeys cur prev scope).flatMap
        (K303.check2aKeyExc cur prev scope) := by
    unfold K303.check_2a_prev_month_comparison
    rw [K303.foldl_append_eq_flatMap, List.nil_append]
  constructor
  · rw [hflat]
    rw [K303.countP_flatMap_keyed (K303.check2aKeyExc cur prev scope)
      (K303.check2aKeyExc_fields cur prev scope) f c
      (K303.sortedKeys cur prev scope) (K303.nodup_sortedKeys cur prev scope)]
    by_cases hmem : (f, c) ∈ K303.sortedKeys cur prev scope
    · rw [if_pos hmem, K303.check2aKeyExc_length]
    · rw [if_neg hmem]
      rw [K303.mem_sortedKeys] at hmem
      push_neg at hmem
      rw [hmem.1, hmem.2]
  · intro e he hf hc
    rw [hflat] at he
    obtain ⟨k, hkmem, hke⟩ := List.mem_flatMap.mp he
    obtain ⟨h1, h2⟩ := K303.check2aKeyExc_fields cur prev scope k e hke
    have hk1 : k.1 = f := Option.some.inj (h1.symm.trans hf)
    have hk2 : k.2 = c := Option.some.inj (h2.symm.trans hc)
    have hk : k = (f, c) := Prod.ext hk1 hk2
    rw [hk] at hke
    unfold K303.check2aKeyExc at hke
    cases hcv : K303.lookupVal cur scope (f, c) with
    | none =>
      cases hpv : K303.lookupVal prev scope (f, c) with
      | none => simp [hcv, hpv] at hke
      | some pv =>
        simp only [hcv, hpv, List.mem_singleton] at hke
        rw [hke]
    | some cv =>
      cases hpv : K303.lookupVal prev scope (f, c) with
      | none =>
        simp only [hcv, hpv, List.mem_singleton] at hke
        rw [hke]
      | some pv =>
        simp only [hcv, hpv] at hke
        by_cases hd : K303.pyAbs (cv - pv) > 10
        · rw [if_pos hd] at hke
          simp only [List.mem_singleton] at hke
          rw [hke]
        · rw [if_neg hd] at hke
          exact absurd hke (List.not_mem_nil e)

/-- Witness for `check2a_delta_comparator`: the fixed 10-point threshold is
strict — previous 50 and current 60 produce no deviation exception, while
current 60.01 produces exactly one. -/
theorem check2a_delta_comparator_witness :
    ((K303.check_2a_prev_month_comparison
        [{ rowNum := 2, fundNo := some 1, fundName := some "F",
           level1 := some "080201", level2 := none, level3 := none,
           level4 := none, percentFromFund := some 60, extraData := none,
           reportDate := none, recordNo := none, totalRecords := none,
           managerNo := none }]
        [{ rowNum := 2, fundNo := some 1, fundName := some "F",
           level1 := some "080201", level2 := none, level3 := none,
           level4 := none, percentFromFund := some 50, extraData := none,
           reportDate := none, recordNo := none, totalRecords := none,
           managerNo := none }]
        [1]).countP
      (fun e => e.fundNo == some 1 && e.effectiveCode == some "080201") = 0) ∧
    ((K303.check_2a_prev_month_comparison
        [{ rowNum := 2, fundNo := some 1, fundName := some "F",
           level1 := some "080201", level2 := none, level3 := none,
           level4 := none, percentFromFund := some (6001/100),
           extraData := none, reportDate := none, recordNo := none,
           totalRecords := none, managerNo := none }]
        [{ rowNum := 2, fundNo := some 1, fundName := some "F",
           level1 := some "080201", level2 := none, level3 := none,
           level4 := none, percentFromFund := some 50, extraData := none,
           reportDate := none, recordNo := none, totalRecords := none,
           managerNo := none }]
        [1]).countP
      (fun e => e.fundNo == some 1 && e.effectiveCode == some "080201") = 1)
    := by
  constructor
  · rw [(check2a_delta_comparator _ _ [1] 1 "080201").1]
    have hc : K303.lookupVal
        [{ rowNum := 2, fundNo := some 1, fundName := some "F",
           level1 := some "080201", level2 := none, level3 := none,
           level4 := none, percentFromFund := some 60, extraData := none,
           reportDate := none, recordNo := none, totalRecords := none,
           managerNo := none }] [1] (1, "080201") = some 60 := by
      have h1 : K303.keyVals
          [{ rowNum := 2, fundNo := some 1, fundName := some "F",
             level1 := some "080201", level2 := none, level3 := none,
             level4 := none, percentFromFund := some 60, extraData := none,
             reportDate := none, recordNo := none, totalRecords := none,
             managerNo := none }] [1] (1, "080201") = [60] := by decide
      unfold K303.lookupVal
      rw [h1]
      simp
    have hp : K303.lookupVal
        [{ rowNum := 2, fundNo := some 1, fundName := some "F",
           level1 := some "080201", level2 := none, level3 := none,
           level4 := none, percentFromFund := some 50, extraData := none,
           reportDate := none, recordNo := none, totalRecords := none,
           managerNo := none }] [1] (1, "080201") = some 50 := by
      have h1 : K303.keyVals
          [{ rowNum := 2, fundNo := some 1, fundName := some "F",
             level1 := some "080201", level2 := none, level3 := none,
             level4 := none, percentFromFund := some 50, extraData := none,
             reportDate := none, recordNo := none, totalRecords := none,
             managerNo := none }] [1] (1, "080201") = [50] := by decide
      unfold K303.lookupVal
      rw [h1]
      simp
    rw [hc, hp]
    norm_num [K303.pyAbs]
  · rw [(check2a_delta_comparator _ _ [1] 1 "080201").1]
    have hc : K303.lookupVal
        [{ rowNum := 2, fundNo := some 1, fundName := some "F",
           level1 := some "080201", level2 := none, level3 := none,
           level4 := none, percentFromFund := some (6001/100),
           extraData := none, reportDate := none, recordNo := none,
           totalRecords := none, managerNo := none }] [1] (1, "080201") =
        some (6001/100) := by
      have h1 : K303.keyVals
          [{ rowNum := 2, fundNo := some 1, fundName := some "F",
             level1 := some "080201", level2 := none, level3 := none,
             level4 := none, percentFromFund := some (6001/100),
             extraData := none, reportDate := none, recordNo := none,
             totalRecords := none, managerNo := none }] [1] (1, "080201") =
          [6001/100] := rfl
      unfold K303.lookupVal
      rw [h1]
      simp
    have hp : K303.lookupVal
        [{ rowNum := 2, fundNo := some 1, fundName := some "F",
           level1 := some "080201", level2 := none, level3 := none,
           level4 := none, percentFromFund := some 50, extraData := none,
           reportDate := none, recordNo := none, totalRecords := none,
           managerNo := none }] [1] (1, "080201") = some 50 := by
      have h1 : K303.keyVals
          [{ rowNum := 2, fundNo := some 1, fundName := some "F",
             level1 := some "080201", level2 := none, level3 := none,
             level4 := none, percentFromFund := some 50, extraData := none,
             reportDate := none, recordNo := none, totalRecords := none,
             managerNo := none }] [1] (1, "080201") = [50] := by decide
      unfold K303.lookupVal
      rw [h1]
      simp
    rw [hc, hp]
    norm_num [K303.pyAbs]

namespace K303

/-- First-occurrence accumulation (insertion order of a `defaultdict`). -/
def addOnce (acc : List Int) (x : Int) : List Int :=
  if x ∈ acc then acc else acc ++ [x]

/-- The in-scope fund ids in first-occurrence order (the iteration order of
`fund_rows.items()` in the grouping loops of `check_2b_exposure_profile` and
`check_3_combinations`). -/
def fundIds (rows : List DisclosureRow) (scope : List Int) : List Int :=
  rows.foldl (fun acc r =>
    match r.fundNo with
    | some f => if f ∈ scope then addOnce acc f else acc
    | none => acc) []

/-- `fund_rows[fund_no]`: the fund's in-scope rows in original order. -/
def fundRows (rows : List DisclosureRow) (scope : List Int) (f : Int) :
    List DisclosureRow :=
  rows.filter (fun r => r.fundNo == some f && inScope scope r)

/-- `EQUITY_EXPOSURE_PROFILES.get(c, None)`.  The `'6'` entry maps to `None`
(unlimited) in the source dict, which is indistinguishable through `.get`'s
`None` default from a missing key, so both are the catch-all here. -/
def EQUITY_EXPOSURE_PROFILES : Char → Option ℚ
  | '0' => some 0
  | '1' => some 10
  | '2' => some 30
  | '3' => some 50
  | '4' => some 120
  | '5' => some 200
  | _ => none

/-- `FX_EXPOSURE_PROFILES.get(c, None)`; the `'F'` entry maps to `None`. -/
def FX_EXPOSURE_PROFILES : Char → Option ℚ
  | '0' => some 0
  | 'A' => some 10
  | 'B' => some 30
  | 'C' => some 50
  | 'D' => some 120
  | 'E' => some 200
  | _ => none

/-- The equity/FX accumulation loop of `check_2b_exposure_profile` in the
top-level `disclosure_k303_validator.py`: `01`-prefixed effective codes feed
the equity total, every other `06`-prefixed one feeds the FX total. -/
def exposureTotals (rows : List DisclosureRow) : ℚ × ℚ :=
  rows.foldl (fun t r =>
    match effectiveCode r with
    | none => t
    | some code =>
      let pct := r.percentFromFund.getD 0
      if PyStr.startsWith code "01" then (t.1 + pct, t.2)
      else if PyStr.startsWith code "06" then (t.1, t.2 + pct)
      else t) (0, 0)

/-- The same loop in the Mizrahi_5 variant: the `0602` sub-branch is excluded
from the FX total (`elif code.startswith("06") and not
code.startswith("0602")`). -/
def exposureTotalsM5 (rows : List DisclosureRow) : ℚ × ℚ :=
  rows.foldl (fun t r =>
    match effectiveCode r with
    | none => t
    | some code =>
      let pct := r.percentFromFund.getD 0
      if PyStr.startsWith code "01" then (t.1 + pct, t.2)
      else if PyStr.startsWith code "06" && !PyStr.startsWith code "0602" then
        (t.1, t.2 + pct)
      else t) (0, 0)

/-- The body of the per-fund loop of `check_2b_exposure_profile`,
parameterised by the totals loop (the only difference between the two source
versions).  Skips funds missing from the registry, falsy or short exposure
profiles; emits the equity exception and then the FX exception when the
respective cap is finite and strictly exceeded. -/
def check2bFundWith (totals : List DisclosureRow → ℚ × ℚ)
    (allFunds : List (Int × MutualFund)) (fundNo : Int)
    (rows : List DisclosureRow) : List ExceptionRow :=
  match lookupFund allFunds fundNo with
  | none => []
  | some fund =>
    match fund.exposureProfile with
    | none => []
    | some prof0 =>
      if prof0 = "" then []
      else
        let profile := PyStr.strip prof0
        if PyStr.strLen profile < 2 then []
        else
          let equityCode := profile.data.headD ' '
          let fxCode := ((profile.data.drop 1).headD ' ').toUpper
          let maxEquity := EQUITY_EXPOSURE_PROFILES equityCode
          let maxFx := FX_EXPOSURE_PROFILES fxCode
          let t := totals rows
          (match maxEquity with
           | some cap =>
             if t.1 > cap then
               [{ checkId := "2ב",
                  reason := "פרופיל " ++ profile ++ " מתיר עד " ++ fmt2 cap ++
                    "% מניות אך סה\"כ חשיפה = " ++ fmt2 t.1 ++ "%",
                  fundNo := some fundNo,
                  fundName := (rows.head?.map (fun r => r.fundName)).getD
                    (some ""),
                  effectiveCode := some "01", percentFromFund := some t.1,
                  rowNum := none }]
             else []
           | none => []) ++
          (match maxFx with
           | some cap =>
             if t.2 > cap then
               [{ checkId := "2ב",
                  reason := "פרופיל " ++ profile ++ " מתיר עד " ++ fmt2 cap ++
                    "% מט\"ח אך סה\"כ חשיפה = " ++ fmt2 t.2 ++ "%",
                  fundNo := some fundNo,
                  fundName := (rows.head?.map (fun r => r.fundName)).getD
                    (some ""),
                  effectiveCode := some "06", percentFromFund := some t.2,
                  rowNum := none }]
             else []
           | none => [])

/-- `check_2b_exposure_profile(disclosure_rows, all_funds, mizrahi_fund_ids)`
from the top-level `disclosure_k303_validator.py`. -/
def check_2b_exposure_profile (rows : List DisclosureRow)
    (allFunds : List (Int × MutualFund)) (scope : List Int) :
    List ExceptionRow :=
  (fundIds rows scope).foldl
    (fun acc f =>
      acc ++ check2bFundWith exposureTotals allFunds f (fundRows rows scope f))
    []

/-- `check_2b_exposure_profile` from the Mizrahi_5 variant (FX total excludes
the `0602` sub-branch). -/
def check_2b_exposure_profile_m5 (rows : List DisclosureRow)
    (allFunds : List (Int × MutualFund)) (scope : List Int) :
    List ExceptionRow :=
  (fundIds rows scope).foldl
    (fun acc f =>
      acc ++
        check2bFundWith exposureTotalsM5 allFunds f (fundRows rows scope f))
    []

end K303


namespace K303

/-- A code under the equity branch `01` is never under the FX branch `06`. -/
theorem startsWith01_excl06 (code : String)
    (h1 : PyStr.startsWith code "01" = true)
    (h6 : PyStr.startsWith code "06" = true) : False := by
  unfold PyStr.startsWith at h1 h6
  obtain ⟨t1, ht1⟩ := List.isPrefixOf_iff_prefix.mp h1
  obtain ⟨t2, ht2⟩ := List.isPrefixOf_iff_prefix.mp h6
  have e1 : code.data.take 2 = "01".data := by rw [← ht1]; rfl
  have e2 : code.data.take 2 = "06".data := by rw [← ht2]; rfl
  rw [e1] at e2
  exact absurd e2 (by decide)

theorem exposureTotalsM5_go (rows : List DisclosureRow) :
    ∀ a b : ℚ,
      rows.foldl (fun t r =>
        match effectiveCode r with
        | none => t
        | some code =>
          let pct := r.percentFromFund.getD 0
          if PyStr.startsWith code "01" then (t.1 + pct, t.2)
          else if PyStr.startsWith code "06" &&
              !PyStr.startsWith code "0602" then (t.1, t.2 + pct)
          else t) (a, b) =
      (a + ((rows.filter (fun r =>
          match effectiveCode r with
          | some code => PyStr.startsWith code "01"
          | none => false)).map (fun r => r.percentFromFund.getD 0)).sum,
       b + ((rows.filter (fun r =>
          match effectiveCode r with
          | some code => PyStr.startsWith code "06" &&
              !PyStr.startsWith code "0602"
          | none => false)).map (fun r => r.percentFromFund.getD 0)).sum) := by
  induction rows with
  | nil => intro a b; simp
  | cons r rest ih =>
    intro a b
    rw [List.foldl_cons]
    cases h : effectiveCode r with
    | none =>
      simp only [h]
      rw [List.filter_cons_of_neg (by simp [h]),
        List.filter_cons_of_neg (by simp [h])]
      exact ih a b
    | some code =>
      simp only [h]
      by_cases h1 : PyStr.startsWith code "01" = true
      · have hne : ¬ (PyStr.startsWith code "06" &&
            !PyStr.startsWith code "0602") = true := by
          intro hcontra
          exact startsWith01_excl06 code h1
            (((Bool.and_eq_true _ _).mp hcontra).1)
        rw [if_pos h1, List.filter_cons_of_pos (by simp [h, h1]),
          List.filter_cons_of_neg (by simp [h, hne]), List.map_cons,
          List.sum_cons]
        exact (ih (a + r.percentFromFund.getD 0) b).trans
          (Prod.ext (by ring) rfl)
      · by_cases h2 : (PyStr.startsWith code "06" &&
            !PyStr.startsWith code "0602") = true
        · rw [if_neg h1, if_pos h2, List.filter_cons_of_neg (by simp [h, h1]),
            List.filter_cons_of_pos (by simp [h, h2]), List.map_cons,
            List.sum_cons]
          exact (ih a (b + r.percentFromFund.getD 0)).trans
            (Prod.ext rfl (by ring))
        · rw [if_neg h1, if_neg h2, List.filter_cons_of_neg (by simp [h, h1]),
            List.filter_cons_of_neg (by simp [h, h2])]
          exact ih a b

end K303

namespace K303

theorem exposureTotals_go (rows : List DisclosureRow) :
    ∀ a b : ℚ,
      rows.foldl (fun t r =>
        match effectiveCode r with
        | none => t
        | some code =>
          let pct := r.percentFromFund.getD 0
          if PyStr.startsWith code "01" then (t.1 + pct, t.2)
          else if PyStr.startsWith code "06" then (t.1, t.2 + pct)
          else t) (a, b) =
      (a + ((rows.filter (fun r =>
          match effectiveCode r with
          | some code => PyStr.startsWith code "01"
          | none => false)).map (fun r => r.percentFromFund.getD 0)).sum,
       b + ((rows.filter (fun r =>
          match effectiveCode r with
          | some code => PyStr.startsWith code "06"
          | none => false)).map (fun r => r.percentFromFund.getD 0)).sum) := by
  induction rows with
  | nil => intro a b; simp
  | cons r rest ih =>
    intro a b
    rw [List.foldl_cons]
    cases h : effectiveCode r with
    | none =>
      simp only [h]
      rw [List.filter_cons_of_neg (by simp [h]),
        List.filter_cons_of_neg (by simp [h])]
      exact ih a b
    | some code =>
      simp only [h]
      by_cases h1 : PyStr.startsWith code "01" = true
      · have hne : ¬ PyStr.startsWith code "06" = true := by
          intro hcontra
          exact startsWith01_excl06 code h1 hcontra
        rw [if_pos h1, List.filter_cons_of_pos (by simp [h, h1]),
          List.filter_cons_of_neg (by simp [h, hne]), List.map_cons,
          List.sum_cons]
        exact (ih (a + r.percentFromFund.getD 0) b).trans
          (Prod.ext (by ring) rfl)
      · by_cases h2 : PyStr.startsWith code "06" = true
        · rw [if_neg h1, if_pos h2, List.filter_cons_of_neg (by simp [h, h1]),
            List.filter_cons_of_pos (by simp [h, h2]), List.map_cons,
            List.sum_cons]
          exact (ih a (b + r.percentFromFund.getD 0)).trans
            (Prod.ext rfl (by ring))
        · rw [if_neg h1, if_neg h2, List.filter_cons_of_neg (by simp [h, h1]),
            List.filter_cons_of_neg (by simp [h, h2])]
          exact ih a b

/-- Per-fund emission counts of `check_2b_exposure_profile`: for a registered
fund with a usable two-character profile, one exception per axis exactly when
the axis cap is finite and the corresponding total strictly exceeds it. -/
theorem check2bFundWith_counts (totals : List DisclosureRow → ℚ × ℚ)
    (allFunds : List (Int × MutualFund)) (f : Int)
    (rows : List DisclosureRow) (fund : MutualFund) (prof : String)
    (hlook : lookupFund allFunds f = some fund)
    (hprof : fund.exposureProfile = some prof) (hne : prof ≠ "")
    (hlen : ¬ PyStr.strLen (PyStr.strip prof) < 2) :
    ((check2bFundWith totals allFunds f rows).countP
        (fun e => e.effectiveCode == some "01") =
      match EQUITY_EXPOSURE_PROFILES ((PyStr.strip prof).data.headD ' ') with
      | some cap => if (totals rows).1 > cap then 1 else 0
      | none => 0) ∧
    ((check2bFundWith totals allFunds f rows).countP
        (fun e => e.effectiveCode == some "06") =
      match FX_EXPOSURE_PROFILES
          ((((PyStr.strip prof).data.drop 1).headD ' ').toUpper) with
      | some cap => if (totals rows).2 > cap then 1 else 0
      | none => 0) := by
  unfold check2bFundWith
  rw [hlook]
  simp only [hprof, if_neg hne, if_neg hlen]
  constructor
  · rw [List.countP_append]
    have hfx : (match FX_EXPOSURE_PROFILES
        ((((PyStr.strip prof).data.drop 1).headD ' ').toUpper) with
      | some cap =>
        if (totals rows).2 > cap then
          [({ checkId := "2ב",
              reason := "פרופיל " ++ PyStr.strip prof ++ " מתיר עד " ++
                fmt2 cap ++ "% מט\"ח אך סה\"כ חשיפה = " ++
                fmt2 (totals rows).2 ++ "%",
              fundNo := some f,
              fundName := (rows.head?.map
                (fun (r : DisclosureRow) => r.fundName)).getD (some ""),
              effectiveCode := some "06",
              percentFromFund := some (totals rows).2,
              rowNum := none } : ExceptionRow)]
        else []
      | none => ([] : List ExceptionRow)).countP
        (fun (e : ExceptionRow) => e.effectiveCode == some "01") = 0 := by
      cases FX_EXPOSURE_PROFILES
          ((((PyStr.strip prof).data.drop 1).headD ' ').toUpper) with
      | none => rfl
      | some cap =>
        by_cases hgt : (totals rows).2 > cap
        · simp [hgt]
        · simp [hgt]
    rw [hfx]
    cases EQUITY_EXPOSURE_PROFILES ((PyStr.strip prof).data.headD ' ') with
    | none => rfl
    | some cap =>
      by_cases hgt : (totals rows).1 > cap
      · simp [hgt]
      · simp [hgt]
  · rw [List.countP_append]
    have heq : (match EQUITY_EXPOSURE_PROFILES
        ((PyStr.strip prof).data.headD ' ') with
      | some cap =>
        if (totals rows).1 > cap then
          [({ checkId := "2ב",
              reason := "פרופיל " ++ PyStr.strip prof ++ " מתיר עד " ++
                fmt2 cap ++ "% מניות אך סה\"כ חשיפה = " ++
                fmt2 (totals rows).1 ++ "%",
              fundNo := some f,
              fundName := (rows.head?.map
                (fun (r : DisclosureRow) => r.fundName)).getD (some ""),
              effectiveCode := some "01",
              percentFromFund := some (totals rows).1,
              rowNum := none } : ExceptionRow)]
        else []
      | none => ([] : List ExceptionRow)).countP
        (fun (e : ExceptionRow) => e.effectiveCode == some "06") = 0 := by
      cases EQUITY_EXPOSURE_PROFILES ((PyStr.strip prof).data.headD ' ') with
      | none => rfl
      | some cap =>
        by_cases hgt : (totals rows).1 > cap
        · simp [hgt]
        · simp [hgt]
    rw [heq]
    cases FX_EXPOSURE_PROFILES
        ((((PyStr.strip prof).data.drop 1).headD ' ').toUpper) with
    | none => rfl
    | some cap =>
      by_cases hgt : (totals rows).2 > cap
      · simp [hgt]
      · simp [hgt]

end K303

/-- **C3**, amended (Exposure-limit checker).  For every in-scope fund with a
two-character exposure profile, `equity_total` is the sum of record values
whose effective code lies under the equity branch (prefix `01`), and an
exception is emitted for an axis iff that axis's cap is finite and the
corresponding total strictly exceeds it — in both source versions.  The FX
total, however, differs between the two versions: only the Mizrahi_5 variant
excludes the breakdown-only `0602` sub-branch; the top-level validator sums
every record under prefix `06` with no exclusion (see the counterexample). -/
theorem check2b_exposure_limits :
    (∀ rows : List K303.DisclosureRow,
      K303.exposureTotalsM5 rows =
        (((rows.filter (fun r =>
            match K303.effectiveCode r with
            | some code => PyStr.startsWith code "01"
            | none => false)).map
              (fun r => r.percentFromFund.getD 0)).sum,
         ((rows.filter (fun r =>
            match K303.effectiveCode r with
            | some code => PyStr.startsWith code "06" &&
                !PyStr.startsWith code "0602"
            | none => false)).map
              (fun r => r.percentFromFund.getD 0)).sum)) ∧
    (∀ rows : List K303.DisclosureRow,
      K303.exposureTotals rows =
        (((rows.filter (fun r =>
            match K303.effectiveCode r with
            | some code => PyStr.startsWith code "01"
            | none => false)).map
              (fun r => r.percentFromFund.getD 0)).sum,
         ((rows.filter (fun r =>
            match K303.effectiveCode r with
            | some code => PyStr.startsWith code "06"
            | none => false)).map
              (fun r => r.percentFromFund.getD 0)).sum)) ∧
    (∀ (totals : List K303.DisclosureRow → ℚ × ℚ)
        (allFunds : List (Int × K303.MutualFund)) (f : Int)
        (rows : List K303.DisclosureRow) (fund : K303.MutualFund)
        (prof : String),
      K303.lookupFund allFunds f = some fund →
      fund.exposureProfile = some prof → prof ≠ "" →
      ¬ PyStr.strLen (PyStr.strip prof) < 2 →
      ((K303.check2bFundWith totals allFunds f rows).countP
          (fun e => e.effectiveCode == some "01") =
        match K303.EQUITY_EXPOSURE_PROFILES
            ((PyStr.strip prof).data.headD ' ') with
        | some cap => if (totals rows).1 > cap then 1 else 0
        | none => 0) ∧
      ((K303.check2bFundWith totals allFunds f rows).countP
          (fun e => e.effectiveCode == some "06") =
        match K303.FX_EXPOSURE_PROFILES
            ((((PyStr.strip prof).data.drop 1).headD ' ').toUpper) with
        | some cap => if (totals rows).2 > cap then 1 else 0
        | none => 0)) ∧
    (∀ (rows : List K303.DisclosureRow)
        (allFunds : List (Int × K303.MutualFund)) (scope : List Int),
      K303.check_2b_exposure_profile_m5 rows allFunds scope =
        (K303.fundIds rows scope).flatMap (fun f =>
          K303.check2bFundWith K303.exposureTotalsM5 allFunds f
            (K303.fundRows rows scope f)) ∧
      K303.check_2b_exposure_profile rows allFunds scope =
        (K303.fundIds rows scope).flatMap (fun f =>
          K303.check2bFundWith K303.exposureTotals allFunds f
            (K303.fundRows rows scope f))) := by
  refine ⟨?_, ?_, ?_, ?_⟩
  · intro rows
    unfold K303.exposureTotalsM5
    rw [K303.exposureTotalsM5_go]
    simp
  · intro rows
    unfold K303.exposureTotals
    rw [K303.exposureTotals_go]
    simp
  · intro totals allFunds f rows fund prof hlook hprof hne hlen
    exact K303.check2bFundWith_counts totals allFunds f rows fund prof
      hlook hprof hne hlen
  · intro rows allFunds scope
    constructor
    · unfold K303.check_2b_exposure_profile_m5
      rw [K303.foldl_append_eq_flatMap, List.nil_append]
    · unfold K303.check_2b_exposure_profile
      rw [K303.foldl_append_eq_flatMap, List.nil_append]

/-- Counterexample to **C3** as stated: in the top-level validator, a fund
whose only record carries the breakdown-only code `060201` (under the `0602`
sub-branch that the claim says is excluded) still produces an FX exposure
exception — the claim's own FX total (with the exclusion) is 0, below the
finite cap of 10 for profile letter `A`, so the claim predicts no
exception. -/
theorem check2b_0602_included_cx :
    ((K303.check_2b_exposure_profile
        [{ rowNum := 2, fundNo := some 1, fundName := some "F",
           level1 := some "060201", level2 := none, level3 := none,
           level4 := none, percentFromFund := some 50, extraData := none,
           reportDate := none, recordNo := none, totalRecords := none,
           managerNo := none }]
        [(1, ⟨1, "F", "T", "M", some "0A"⟩)] [1]).countP
      (fun e => e.effectiveCode == some "06") = 1) ∧
    ((([({ rowNum := 2, fundNo := some 1, fundName := some "F",
           level1 := some "060201", level2 := none, level3 := none,
           level4 := none, percentFromFund := some 50, extraData := none,
           reportDate := none, recordNo := none, totalRecords := none,
           managerNo := none } : K303.DisclosureRow)].filter (fun r =>
        match K303.effectiveCode r with
        | some code => PyStr.startsWith code "06" &&
            !PyStr.startsWith code "0602"
        | none => false)).map
          (fun r => r.percentFromFund.getD 0)).sum = 0) ∧
    K303.FX_EXPOSURE_PROFILES 'A' = some 10 := by
  refine ⟨?_, by decide, by decide⟩
  have hc : K303.check_2b_exposure_profile
      [{ rowNum := 2, fundNo := some 1, fundName := some "F",
         level1 := some "060201", level2 := none, level3 := none,
         level4 := none, percentFromFund := some 50, extraData := none,
         reportDate := none, recordNo := none, totalRecords := none,
         managerNo := none }]
      [(1, ⟨1, "F", "T", "M", some "0A"⟩)] [1] =
      K303.check2bFundWith K303.exposureTotals
        [(1, ⟨1, "F", "T", "M", some "0A"⟩)] 1
        (K303.fundRows
          [{ rowNum := 2, fundNo := some 1, fundName := some "F",
             level1 := some "060201", level2 := none, level3 := none,
             level4 := none, percentFromFund := some 50, extraData := none,
             reportDate := none, recordNo := none, totalRecords := none,
             managerNo := none }] [1] 1) := rfl
  have htot : K303.exposureTotals
      (K303.fundRows
        [{ rowNum := 2, fundNo := some 1, fundName := some "F",
           level1 := some "060201", level2 := none, level3 := none,
           level4 := none, percentFromFund := some 50, extraData := none,
           reportDate := none, recordNo := none, totalRecords := none,
           managerNo := none }] [1] 1) = (0, 50) := by
    unfold K303.exposureTotals
    rw [K303.exposureTotals_go]
    have hf1 : (K303.fundRows
        [{ rowNum := 2, fundNo := some 1, fundName := some "F",
           level1 := some "060201", level2 := none, level3 := none,
           level4 := none, percentFromFund := some 50, extraData := none,
           reportDate := none, recordNo := none, totalRecords := none,
           managerNo := none }] [1] 1).filter (fun r =>
        match K303.effectiveCode r with
        | some code => PyStr.startsWith code "01"
        | none => false) = [] := by decide
    have hf2 : (K303.fundRows
        [{ rowNum := 2, fundNo := some 1, fundName := some "F",
           level1 := some "060201", level2 := none, level3 := none,
           level4 := none, percentFromFund := some 50, extraData := none,
           reportDate := none, recordNo := none, totalRecords := none,
           managerNo := none }] [1] 1).filter (fun r =>
        match K303.effectiveCode r with
        | some code => PyStr.startsWith code "06"
        | none => false) =
        [{ rowNum := 2, fundNo := some 1, fundName := some "F",
           level1 := some "060201", level2 := none, level3 := none,
           level4 := none, percentFromFund := some 50, extraData := none,
           reportDate := none, recordNo := none, totalRecords := none,
           managerNo := none }] := by decide
    rw [hf1, hf2]
    simp
  have hcnt := K303.check2bFundWith_counts K303.exposureTotals
    [(1, ⟨1, "F", "T", "M", some "0A"⟩)] 1
    (K303.fundRows
      [{ rowNum := 2, fundNo := some 1, fundName := some "F",
         level1 := some "060201", level2 := none, level3 := none,
         level4 := none, percentFromFund := some 50, extraData := none,
         reportDate := none, recordNo := none, totalRecords := none,
         managerNo := none }] [1] 1)
    ⟨1, "F", "T", "M", some "0A"⟩ "0A" (by decide) rfl (by decide) (by decide)
  rw [hc, hcnt.2, htot]
  decide


namespace K303

/-- A sample record carrying only the breakdown-only FX code `060201`
(used to exercise the `0602` exclusion of the Mizrahi_5 exposure check). -/
def row060201 : DisclosureRow :=
  { rowNum := 2, fundNo := some 1, fundName := some "F",
    level1 := some "060201", level2 := none, level3 := none,
    level4 := none, percentFromFund := some 50, extraData := none,
    reportDate := none, recordNo := none, totalRecords := none,
    managerNo := none }

/-- A sample registry with one fund whose exposure profile is `"0A"`
(0% equity cap, 10% FX cap). -/
def reg0A : List (Int × MutualFund) := [(1, ⟨1, "F", "T", "M", some "0A"⟩)]

end K303

/-- Witness for `check2b_exposure_limits`: in the Mizrahi_5 variant, a fund
holding only the breakdown-only `060201` record has an FX total of 0 and
produces no FX exception under the finite cap 10 (profile `"0A"`). -/
theorem check2b_exposure_limits_witness :
    K303.exposureTotalsM5 [K303.row060201] = (0, 0) ∧
    (K303.check2bFundWith K303.exposureTotalsM5 K303.reg0A 1
        [K303.row060201]).countP
      (fun e => e.effectiveCode == some "06") = 0 := by
  have htot : K303.exposureTotalsM5 [K303.row060201] = (0, 0) := by
    rw [check2b_exposure_limits.1 [K303.row060201]]
    have hf1 : ([K303.row060201].filter (fun r =>
        match K303.effectiveCode r with
        | some code => PyStr.startsWith code "01"
        | none => false)) = [] := by decide
    have hf2 : ([K303.row060201].filter (fun r =>
        match K303.effectiveCode r with
        | some code => PyStr.startsWith code "06" &&
            !PyStr.startsWith code "0602"
        | none => false)) = [] := by decide
    rw [hf1, hf2]
    rfl
  refine ⟨htot, ?_⟩
  have hcnt := (check2b_exposure_limits.2.2.1 K303.exposureTotalsM5
    K303.reg0A 1 [K303.row060201] ⟨1, "F", "T", "M", some "0A"⟩ "0A"
    (by decide) rfl (by decide) (by decide)).2
  rw [hcnt, htot]
  decide

/-- **C10** (implicit: unrecognized exposure profiles are silently skipped).
For every fund whose registry entry is missing, has no (or an empty) exposure
profile, or a profile shorter than two characters after stripping, the
exposure checker emits nothing; when the profile's first character is not a
key of the equity cap table, or its uppercased second character is not a key
of the FX cap table, no exception is emitted for that axis regardless of the
totals (the statement quantifies over an arbitrary totals function, so the
fund's summed exposures are irrelevant).  All model functions are total, so
no error is raised. -/
theorem check2b_unknown_profile_skips
    (totals : List K303.DisclosureRow → ℚ × ℚ)
    (allFunds : List (Int × K303.MutualFund)) (f : Int)
    (rows : List K303.DisclosureRow) :
    (K303.lookupFund allFunds f = none →
      K303.check2bFundWith totals allFunds f rows = []) ∧
    (∀ fund, K303.lookupFund allFunds f = some fund →
      (fund.exposureProfile = none ∨ fund.exposureProfile = some "") →
      K303.check2bFundWith totals allFunds f rows = []) ∧
    (∀ fund prof, K303.lookupFund allFunds f = some fund →
      fund.exposureProfile = some prof → prof ≠ "" →
      PyStr.strLen (PyStr.strip prof) < 2 →
      K303.check2bFundWith totals allFunds f rows = []) ∧
    (∀ fund prof, K303.lookupFund allFunds f = some fund →
      fund.exposureProfile = some prof → prof ≠ "" →
      ¬ PyStr.strLen (PyStr.strip prof) < 2 →
      K303.EQUITY_EXPOSURE_PROFILES ((PyStr.strip prof).data.headD ' ')
        = none →
      (K303.check2bFundWith totals allFunds f rows).countP
        (fun e => e.effectiveCode == some "01") = 0) ∧
    (∀ fund prof, K303.lookupFund allFunds f = some fund →
      fund.exposureProfile = some prof → prof ≠ "" →
      ¬ PyStr.strLen (PyStr.strip prof) < 2 →
      K303.FX_EXPOSURE_PROFILES
        ((((PyStr.strip prof).data.drop 1).headD ' ').toUpper) = none →
      (K303.check2bFundWith totals allFunds f rows).countP
        (fun e => e.effectiveCode == some "06") = 0) := by
  refine ⟨?_, ?_, ?_, ?_, ?_⟩
  · intro hlook
    unfold K303.check2bFundWith
    rw [hlook]
  · intro fund hlook hprof
    unfold K303.check2bFundWith
    simp only [hlook]
    rcases hprof with h | h
    · simp only [h]
    · simp [h]
  · intro fund prof hlook hprof hne hlen
    unfold K303.check2bFundWith
    simp only [hlook, hprof, if_neg hne, if_pos hlen]
  · intro fund prof hlook hprof hne hlen hcap
    rw [(K303.check2bFundWith_counts totals allFunds f rows fund prof
      hlook hprof hne hlen).1, hcap]
  · intro fund prof hlook hprof hne hlen hcap
    rw [(K303.check2bFundWith_counts totals allFunds f rows fund prof
      hlook hprof hne hlen).2, hcap]

/-- Witness for `check2b_unknown_profile_skips`: profile `"9z"` — `'9'` is
not an equity cap key and `'Z'` is not an FX cap key — yields no exposure
exceptions even with a constant totals function reporting 1000% on both
axes. -/
theorem check2b_unknown_profile_skips_witness :
    (K303.check2bFundWith (fun _ => ((1000 : ℚ), (1000 : ℚ)))
        [(1, ⟨1, "F", "T", "M", some "9z"⟩)] 1 []).countP
      (fun e => e.effectiveCode == some "01") = 0 ∧
    (K303.check2bFundWith (fun _ => ((1000 : ℚ), (1000 : ℚ)))
        [(1, ⟨1, "F", "T", "M", some "9z"⟩)] 1 []).countP
      (fun e => e.effectiveCode == some "06") = 0 ∧
    (K303.check2bFundWith (fun _ => ((1000 : ℚ), (1000 : ℚ)))
        [(1, ⟨1, "F", "T", "M", none⟩)] 1 []) = [] := by
  refine ⟨?_, ?_, ?_⟩
  · exact (check2b_unknown_profile_skips (fun _ => ((1000 : ℚ), (1000 : ℚ)))
      [(1, ⟨1, "F", "T", "M", some "9z"⟩)] 1 []).2.2.2.1
      ⟨1, "F", "T", "M", some "9z"⟩ "9z" (by decide) rfl (by decide)
      (by decide) (by decide)
  · exact (check2b_unknown_profile_skips (fun _ => ((1000 : ℚ), (1000 : ℚ)))
      [(1, ⟨1, "F", "T", "M", some "9z"⟩)] 1 []).2.2.2.2
      ⟨1, "F", "T", "M", some "9z"⟩ "9z" (by decide) rfl (by decide)
      (by decide) (by decide)
  · exact (check2b_unknown_profile_skips (fun _ => ((1000 : ℚ), (1000 : ℚ)))
      [(1, ⟨1, "F", "T", "M", none⟩)] 1 []).2.1
      ⟨1, "F", "T", "M", none⟩ (by decide) (Or.inl rfl)

namespace K303

/-- The effective-code set of a fund's rows (`codes` in
`check_3_combinations`); list membership models the Python set. -/
def fundCodes (rows : List DisclosureRow) : List String :=
  rows.filterMap effectiveCode

/-- The TIER-1 value set (`tier1_codes`: stripped truthy `level_1` values). -/
def tier1Codes (rows : List DisclosureRow) : List String :=
  rows.filterMap (fun r => levelVal r.level1)

/-- The TIER-2 value set (`tier2_codes`: stripped truthy `level_2` values). -/
def tier2Codes (rows : List DisclosureRow) : List String :=
  rows.filterMap (fun r => levelVal r.level2)

/-- `fund_names.get(fund_no, "")` in `check_3_combinations`: the last
in-scope row of the fund with a truthy name wins the dict slot. -/
def fundName3 (rows : List DisclosureRow) (scope : List Int) (f : Int) :
    String :=
  match (fundRows rows scope f).reverse.find? (fun r =>
      match r.fundName with
      | some n => n ≠ ""
      | none => false) with
  | some r => r.fundName.getD ""
  | none => ""

/-- `fx_related`: `"0102" in tier2_codes or "0302" in tier2_codes or "0502"
in tier2_codes`. -/
def fxRelated (t2 : List String) : Bool :=
  decide ("0102" ∈ t2) || decide ("0302" ∈ t2) || decide ("0502" ∈ t2)

/-- `has_06 = any(c.startswith("06") for c in tier2_codes)`. -/
def has06tier2 (t2 : List String) : Bool :=
  t2.any (fun c => PyStr.startsWith c "06")

/-- Check 3א (FX exposure), evaluated per fund over the TIER-2 value set. -/
def check3aFund (t2 : List String) (f : Int) (name : String) :
    List ExceptionRow :=
  if fxRelated t2 && !has06tier2 t2 then
    [{ checkId := "3א",
       reason := "יש חשיפה למט\"ח (0102/0302/0502) אך חסר קוד 06",
       fundNo := some f, fundName := some name }]
  else if has06tier2 t2 && !fxRelated t2 then
    [{ checkId := "3א",
       reason := "יש קוד 06 אך חסרים קודי חשיפה למט\"ח (0102/0302/0502)",
       fundNo := some f, fundName := some name }]
  else []

/-- `has_03 = "3" in tier1_codes or "03" in tier1_codes`. -/
def has03 (t1 : List String) : Bool :=
  decide ("3" ∈ t1) || decide ("03" ∈ t1)

/-- `has_07 = "7" in tier1_codes or "07" in tier1_codes`. -/
def has07 (t1 : List String) : Bool :=
  decide ("7" ∈ t1) || decide ("07" ∈ t1)

/-- `has_08 = "8" in tier1_codes or "08" in tier1_codes`. -/
def has08 (t1 : List String) : Bool :=
  decide ("8" ∈ t1) || decide ("08" ∈ t1)

/-- Check 3ב (bond exposure), evaluated per fund over the TIER-1 value set:
`03` requires both `07` and `08`; `07` or `08` requires `03`. -/
def check3bFund (t1 : List String) (f : Int) (name : String) :
    List ExceptionRow :=
  if has03 t1 && !(has07 t1 && has08 t1) then
    let missing := (if !has07 t1 then ["07 (דירוגים)"] else []) ++
      (if !has08 t1 then ["08 (מח\"מ)"] else [])
    [{ checkId := "3ב",
       reason := "יש אג\"ח (03) אך חסר: " ++ PyStr.joinSep ", " missing,
       fundNo := some f, fundName := some name }]
  else if (has07 t1 || has08 t1) && !has03 t1 then
    [{ checkId := "3ב", reason := "יש קוד 07/08 אך חסר קוד אג\"ח (03)",
       fundNo := some f, fundName := some name }]
  else []

/-- The shared two-sided shape of the pairwise checks 3ג–3ח. -/
def checkPairFund (checkId : String) (hasA hasB : Bool)
    (reasonAnoB reasonBnoA : String) (f : Int) (name : String) :
    List ExceptionRow :=
  if hasA && !hasB then
    [{ checkId := checkId, reason := reasonAnoB, fundNo := some f,
       fundName := some name }]
  else if hasB && !hasA then
    [{ checkId := checkId, reason := reasonBnoA, fundNo := some f,
       fundName := some name }]
  else []

/-- The eight per-rule exception lists of `check_3_combinations`. -/
structure Check3Results where
  r3a : List ExceptionRow
  r3b : List ExceptionRow
  r3c : List ExceptionRow
  r3d : List ExceptionRow
  r3e : List ExceptionRow
  r3f : List ExceptionRow
  r3g : List ExceptionRow
  r3h : List ExceptionRow
deriving DecidableEq, Repr

/-- `check_3_combinations(disclosure_rows, mizrahi_fund_ids)` from the
top-level `disclosure_k303_validator.py`. -/
def check_3_combinations (rows : List DisclosureRow) (scope : List Int) :
    Check3Results :=
  let fids := fundIds rows scope
  { r3a := fids.foldl (fun acc f =>
      acc ++ check3aFund (tier2Codes (fundRows rows scope f)) f
        (fundName3 rows scope f)) []
    r3b := fids.foldl (fun acc f =>
      acc ++ check3bFund (tier1Codes (fundRows rows scope f)) f
        (fundName3 rows scope f)) []
    r3c := fids.foldl (fun acc f =>
      acc ++ checkPairFund "3ג"
        (decide ("03010101" ∈ fundCodes (fundRows rows scope f)))
        (decide ("080201" ∈ fundCodes (fundRows rows scope f)))
        "יש אג\"ח ממשלתי שקלי (03010101) אך חסר מח\"מ (080201)"
        "יש מח\"מ ממשלתי שקלי (080201) אך חסר אג\"ח (03010101)"
        f (fundName3 rows scope f)) []
    r3d := fids.foldl (fun acc f =>
      acc ++ checkPairFund "3ד"
        (decide ("03010102" ∈ fundCodes (fundRows rows scope f)))
        (decide ("080202" ∈ fundCodes (fundRows rows scope f)))
        "יש אג\"ח ממשלתי צמוד (03010102) אך חסר מח\"מ (080202)"
        "יש מח\"מ ממשלתי צמוד (080202) אך חסר אג\"ח (03010102)"
        f (fundName3 rows scope f)) []
    r3e := fids.foldl (fun acc f =>
      acc ++ checkPairFund "3ה"
        (decide ("03010103" ∈ fundCodes (fundRows rows scope f)))
        (decide ("080203" ∈ fundCodes (fundRows rows scope f)))
        "יש אג\"ח ממשלתי צמוד מט\"ח (03010103) אך חסר מח\"מ (080203)"
        "יש מח\"מ ממשלתי צמוד מט\"ח (080203) אך חסר אג\"ח (03010103)"
        f (fundName3 rows scope f)) []
    r3f := fids.foldl (fun acc f =>
      acc ++ checkPairFund "3ו"
        (decide ("03010202" ∈ fundCodes (fundRows rows scope f)) ||
          decide ("03010203" ∈ fundCodes (fundRows rows scope f)))
        (decide ("080204" ∈ fundCodes (fundRows rows scope f)))
        "יש אג\"ח קונצרני שקלי (03010202/03010203) אך חסר מח\"מ (080204)"
        "יש מח\"מ קונצרני שקלי (080204) אך חסר אג\"ח (03010202/03010203)"
        f (fundName3 rows scope f)) []
    r3g := fids.foldl (fun acc f =>
      acc ++ checkPairFund "3ז"
        (decide ("03010201" ∈ fundCodes (fundRows rows scope f)))
        (decide ("080205" ∈ fundCodes (fundRows rows scope f)))
        "יש אג\"ח קונצרני צמוד (03010201) אך חסר מח\"מ (080205)"
        "יש מח\"מ קונצרני צמוד (080205) אך חסר אג\"ח (03010201)"
        f (fundName3 rows scope f)) []
    r3h := fids.foldl (fun acc f =>
      acc ++ checkPairFund "3ח"
        (decide ("03010204" ∈ fundCodes (fundRows rows scope f)))
        (decide ("080206" ∈ fundCodes (fundRows rows scope f)))
        "יש אג\"ח קונצרני צמוד מט\"ח (03010204) אך חסר מח\"מ (080206)"
        "יש מח\"מ קונצרני צמוד מט\"ח (080206) אך חסר אג\"ח (03010204)"
        f (fundName3 rows scope f)) [] }

end K303

namespace K303

theorem addOnce_nodup (acc : List Int) (x : Int) (h : acc.Nodup) :
    (addOnce acc x).Nodup := by
  unfold addOnce
  by_cases hx : x ∈ acc
  · rw [if_pos hx]; exact h
  · rw [if_neg hx]
    rw [List.nodup_append]
    exact ⟨h, List.nodup_singleton x, by simpa using hx⟩

theorem fundIds_go_nodup (rows : List DisclosureRow) (scope : List Int) :
    ∀ acc : List Int, acc.Nodup →
      (rows.foldl (fun acc r =>
        match r.fundNo with
        | some f => if f ∈ scope then addOnce acc f else acc
        | none => acc) acc).Nodup := by
  induction rows with
  | nil => intro acc h; exact h
  | cons r rest ih =>
    intro acc h
    rw [List.foldl_cons]
    cases hr : r.fundNo with
    | none => exact ih acc h
    | some f =>
      by_cases hf : f ∈ scope
      · simp only [hr, if_pos hf]
        exact ih (addOnce acc f) (addOnce_nodup acc f h)
      · simp only [hr, if_neg hf]
        exact ih acc h

theorem fundIds_nodup (rows : List DisclosureRow) (scope : List Int) :
    (fundIds rows scope).Nodup :=
  fundIds_go_nodup rows scope [] List.nodup_nil

theorem check3bFund_fundNo (t1 : List String) (f : Int) (name : String) :
    ∀ e ∈ check3bFund t1 f name, e.fundNo = some f := by
  intro e he
  unfold check3bFund at he
  by_cases h1 : (has03 t1 && !(has07 t1 && has08 t1)) = true
  · simp only [h1, if_true] at he
    simp only [List.mem_singleton] at he
    rw [he]
  · rw [if_neg h1] at he
    by_cases h2 : ((has07 t1 || has08 t1) && !has03 t1) = true
    · rw [if_pos h2] at he
      simp only [List.mem_singleton] at he
      rw [he]
    · rw [if_neg h2] at he
      exact absurd he (List.not_mem_nil e)

theorem countP_flatMap_fund (g : Int → List ExceptionRow)
    (hg : ∀ k, ∀ e ∈ g k, e.fundNo = some k) (f : Int) :
    ∀ ks : List Int, ks.Nodup →
      (ks.flatMap g).countP (fun e => e.fundNo == some f) =
        if f ∈ ks then (g f).length else 0 := by
  intro ks
  induction ks with
  | nil => intro _; simp
  | cons k rest ih =>
    intro hnd
    rw [List.nodup_cons] at hnd
    rw [List.flatMap_cons, List.countP_append, ih hnd.2]
    by_cases hk : k = f
    · have hcnt : (g k).countP (fun e => e.fundNo == some f) =
          (g k).length := by
        rw [List.countP_eq_length]
        intro e he
        rw [hg k e he, hk]
        simp
      have hnotin : f ∉ rest := by rw [← hk]; exact hnd.1
      rw [hcnt, hk, if_neg hnotin]
      simp
    · have hcnt : (g k).countP (fun e => e.fundNo == some f) = 0 := by
        rw [List.countP_eq_zero]
        intro e he
        rw [hg k e he]
        simp only [beq_iff_eq, Option.some.injEq]
        exact hk
      have hmem : (f ∈ k :: rest) ↔ (f ∈ rest) := by
        rw [List.mem_cons]
        constructor
        · rintro (h | h)
          · exact absurd h.symm hk
          · exact h
        · exact Or.inr
      rw [hcnt, if_congr hmem rfl rfl]
      omega

end K303

/-- **C2**, amended (Implication/combination checker, bond rule 3ב).  For
every fund, with `has03`/`has07`/`has08` the membership tests over the
TIER-1 value set: exactly one exception (whose wording begins "bonds present
but missing") is emitted when `has03` holds and *not both* `has07` and
`has08` hold — the required side is a conjunction, not a set intersection —
and exactly one exception with the symmetric wording when `has07` or `has08`
holds and `has03` does not; none otherwise.  In particular a fund with codes
{03, 07} *does* produce an exception (see the counterexample), contrary to
the claim's intersection semantics.  Aggregated over the checker, each fund
contributes its own per-fund list exactly once. -/
theorem check3_bond_rule :
    (∀ (rows : List K303.DisclosureRow) (scope : List Int),
      (K303.check_3_combinations rows scope).r3b =
        (K303.fundIds rows scope).flatMap (fun f =>
          K303.check3bFund (K303.tier1Codes (K303.fundRows rows scope f)) f
            (K303.fundName3 rows scope f))) ∧
    (∀ (t1 : List String) (f : Int) (name : String),
      ((K303.has03 t1 && !(K303.has07 t1 && K303.has08 t1)) = true →
        (K303.check3bFund t1 f name).length = 1 ∧
        ∀ e ∈ K303.check3bFund t1 f name,
          PyStr.startsWith e.reason "יש אג\"ח (03) אך חסר: " = true) ∧
      (((K303.has07 t1 || K303.has08 t1) && !K303.has03 t1) = true →
        K303.check3bFund t1 f name =
          [{ checkId := "3ב", reason := "יש קוד 07/08 אך חסר קוד אג\"ח (03)",
             fundNo := some f, fundName := some name }]) ∧
      ((K303.has03 t1 && !(K303.has07 t1 && K303.has08 t1)) = false →
        ((K303.has07 t1 || K303.has08 t1) && !K303.has03 t1) = false →
        K303.check3bFund t1 f name = [])) ∧
    (∀ (rows : List K303.DisclosureRow) (scope : List Int) (f : Int),
      ((K303.check_3_combinations rows scope).r3b).countP
          (fun e => e.fundNo == some f) =
        if f ∈ K303.fundIds rows scope then
          (K303.check3bFund (K303.tier1Codes (K303.fundRows rows scope f)) f
            (K303.fundName3 rows scope f)).length
        else 0) := by
  have hflat : ∀ (rows : List K303.DisclosureRow) (scope : List Int),
      (K303.check_3_combinations rows scope).r3b =
        (K303.fundIds rows scope).flatMap (fun f =>
          K303.check3bFund (K303.tier1Codes (K303.fundRows rows scope f)) f
            (K303.fundName3 rows scope f)) := by
    intro rows scope
    show (K303.fundIds rows scope).foldl _ [] = _
    rw [K303.foldl_append_eq_flatMap, List.nil_append]
  refine ⟨hflat, ?_, ?_⟩
  · intro t1 f name
    refine ⟨?_, ?_, ?_⟩
    · intro h1
      unfold K303.check3bFund
      rw [if_pos h1]
      refine ⟨rfl, ?_⟩
      intro e he
      simp only [List.mem_singleton] at he
      rw [he]
      show ("יש אג\"ח (03) אך חסר: ".data).isPrefixOf
        (("יש אג\"ח (03) אך חסר: " ++ PyStr.joinSep ", " _).data) = true
      rw [String.data_append]
      exact List.isPrefixOf_iff_prefix.mpr (List.prefix_append _ _)
    · intro h2
      unfold K303.check3bFund
      have h1 : (K303.has03 t1 && !(K303.has07 t1 && K303.has08 t1))
          = false := by
        rcases Bool.and_eq_true _ _ |>.mp h2 with ⟨_, h03⟩
        simp only [Bool.not_eq_true'] at h03
        simp [h03]
      rw [if_neg (by rw [h1]; exact Bool.false_ne_true), if_pos h2]
    · intro h1 h2
      unfold K303.check3bFund
      rw [if_neg (by rw [h1]; exact Bool.false_ne_true),
        if_neg (by rw [h2]; exact Bool.false_ne_true)]
  · intro rows scope f
    rw [hflat rows scope]
    exact K303.countP_flatMap_fund _
      (fun k => K303.check3bFund_fundNo
        (K303.tier1Codes (K303.fundRows rows scope k)) k
        (K303.fundName3 rows scope k)) f
      (K303.fundIds rows scope) (K303.fundIds_nodup rows scope)

/-- Witness for `check3_bond_rule`: a fund with TIER-1 codes {03, 07, 08}
produces no 3ב exception; one with only {07} produces exactly the reverse
exception. -/
theorem check3_bond_rule_witness :
    K303.check3bFund ["03", "07", "08"] 1 "" = [] ∧
    K303.check3bFund ["07"] 1 "" =
      [{ checkId := "3ב", reason := "יש קוד 07/08 אך חסר קוד אג\"ח (03)",
         fundNo := some 1, fundName := some "" }] := by
  constructor
  · exact (check3_bond_rule.2.1 ["03", "07", "08"] 1 "").2.2
      (by decide) (by decide)
  · exact (check3_bond_rule.2.1 ["07"] 1 "").2.1 (by decide)

/-- Counterexample to **C2** as stated: a fund whose TIER-1 codes are
{03, 07} has the trigger (03) present *and* the required set {07, 08}
intersected (07 present), so the claim's two-sided intersection semantics
predicts no exception; the checker emits exactly one (07 present but 08
missing). -/
theorem check3_bond_rule_cx :
    ("03" ∈ K303.tier1Codes (K303.fundRows
        [{ rowNum := 2, fundNo := some 1, fundName := some "F",
           level1 := some "03", level2 := none, level3 := none,
           level4 := none, percentFromFund := some 10, extraData := none,
           reportDate := none, recordNo := none, totalRecords := none,
           managerNo := none },
         { rowNum := 3, fundNo := some 1, fundName := some "F",
           level1 := some "07", level2 := none, level3 := none,
           level4 := none, percentFromFund := some 20, extraData := none,
           reportDate := none, recordNo := none, totalRecords := none,
           managerNo := none }] [1] 1) ∧
     "07" ∈ K303.tier1Codes (K303.fundRows
        [{ rowNum := 2, fundNo := some 1, fundName := some "F",
           level1 := some "03", level2 := none, level3 := none,
           level4 := none, percentFromFund := some 10, extraData := none,
           reportDate := none, recordNo := none, totalRecords := none,
           managerNo := none },
         { rowNum := 3, fundNo := some 1, fundName := some "F",
           level1 := some "07", level2 := none, level3 := none,
           level4 := none, percentFromFund := some 20, extraData := none,
           reportDate := none, recordNo := none, totalRecords := none,
           managerNo := none }] [1] 1)) ∧
    ((K303.check_3_combinations
        [{ rowNum := 2, fundNo := some 1, fundName := some "F",
           level1 := some "03", level2 := none, level3 := none,
           level4 := none, percentFromFund := some 10, extraData := none,
           reportDate := none, recordNo := none, totalRecords := none,
           managerNo := none },
         { rowNum := 3, fundNo := some 1, fundName := some "F",
           level1 := some "07", level2 := none, level3 := none,
           level4 := none, percentFromFund := some 20, extraData := none,
           reportDate := none, recordNo := none, totalRecords := none,
           managerNo := none }] [1]).r3b).length = 1 := by
  constructor
  · exact ⟨by decide, by decide⟩
  · decide

/-- **C9** (Level-scoped FX implication rule 3א).  The rule evaluates both
membership tests — the trigger `{0102, 0302, 0502}` and the required
`06*`-prefix test — over the fund's TIER-2 (`level_2`) value set, not the
effective-code set: the TIER-2 set is a function of the `level_2` column
alone, an exception is emitted iff exactly one side holds over that set, and
the aggregated 3א list is the per-fund evaluation over each fund's TIER-2
set.  A fund whose `0102` appears only at another level (e.g. as a level-3
effective code) neither triggers nor satisfies the rule (see the
witness). -/
theorem check3_fx_level_scope :
    (∀ (rows : List K303.DisclosureRow) (scope : List Int),
      (K303.check_3_combinations rows scope).r3a =
        (K303.fundIds rows scope).flatMap (fun f =>
          K303.check3aFund (K303.tier2Codes (K303.fundRows rows scope f)) f
            (K303.fundName3 rows scope f))) ∧
    (∀ rows rows' : List K303.DisclosureRow,
      rows.map (fun r => r.level2) = rows'.map (fun r => r.level2) →
      K303.tier2Codes rows = K303.tier2Codes rows') ∧
    (∀ (t2 : List String) (f : Int) (name : String),
      K303.check3aFund t2 f name ≠ [] ↔
        ((K303.fxRelated t2 = true ∧ K303.has06tier2 t2 = false) ∨
         (K303.has06tier2 t2 = true ∧ K303.fxRelated t2 = false))) := by
  refine ⟨?_, ?_, ?_⟩
  · intro rows scope
    show (K303.fundIds rows scope).foldl _ [] = _
    rw [K303.foldl_append_eq_flatMap, List.nil_append]
  · intro rows
    induction rows with
    | nil =>
      intro rows' h
      cases rows' with
      | nil => rfl
      | cons r' rest' => simp at h
    | cons r rest ih =>
      intro rows' h
      cases rows' with
      | nil => simp at h
      | cons r' rest' =>
        simp only [List.map_cons, List.cons.injEq] at h
        unfold K303.tier2Codes
        simp only [List.filterMap_cons]
        rw [h.1]
        have hrec := ih rest' h.2
        unfold K303.tier2Codes at hrec
        rw [hrec]
  · intro t2 f name
    unfold K303.check3aFund
    by_cases h1 : (K303.fxRelated t2 && !K303.has06tier2 t2) = true
    · rw [if_pos h1]
      rcases Bool.and_eq_true _ _ |>.mp h1 with ⟨hfx, h06⟩
      simp only [Bool.not_eq_true'] at h06
      constructor
      · intro _
        exact Or.inl ⟨hfx, h06⟩
      · intro _
        simp
    · rw [if_neg h1]
      by_cases h2 : (K303.has06tier2 t2 && !K303.fxRelated t2) = true
      · rw [if_pos h2]
        rcases Bool.and_eq_true _ _ |>.mp h2 with ⟨h06, hfx⟩
        simp only [Bool.not_eq_true'] at hfx
        constructor
        · intro _
          exact Or.inr ⟨h06, hfx⟩
        · intro _
          simp
      · rw [if_neg h2]
        constructor
        · intro hne
          exact absurd rfl hne
        · rintro (⟨hfx, h06⟩ | ⟨h06, hfx⟩)
          · exact absurd (by rw [hfx, h06]; rfl) h1
          · exact absurd (by rw [hfx, h06]; rfl) h2

/-- Witness for `check3_fx_level_scope`: a fund whose only `0102` sits in the
`level_3` column has an empty TIER-2 set — `0102` is among its effective
codes, yet the 3א rule neither fires nor is satisfied (no exception). -/
theorem check3_fx_level_scope_witness :
    K303.tier2Codes
        [{ rowNum := 2, fundNo := some 1, fundName := some "F",
           level1 := none, level2 := none, level3 := some "0102",
           level4 := none, percentFromFund := some 10, extraData := none,
           reportDate := none, recordNo := none, totalRecords := none,
           managerNo := none }] = [] ∧
    "0102" ∈ K303.fundCodes
        [{ rowNum := 2, fundNo := some 1, fundName := some "F",
           level1 := none, level2 := none, level3 := some "0102",
           level4 := none, percentFromFund := some 10, extraData := none,
           reportDate := none, recordNo := none, totalRecords := none,
           managerNo := none }] ∧
    K303.check3aFund
      (K303.tier2Codes
        [{ rowNum := 2, fundNo := some 1, fundName := some "F",
           level1 := none, level2 := none, level3 := some "0102",
           level4 := none, percentFromFund := some 10, extraData := none,
           reportDate := none, recordNo := none, totalRecords := none,
           managerNo := none }]) 1 "F" = [] := by
  refine ⟨by decide, by decide, ?_⟩
  by_contra hne
  have h := (check3_fx_level_scope.2.2
    (K303.tier2Codes
      [{ rowNum := 2, fundNo := some 1, fundName := some "F",
         level1 := none, level2 := none, level3 := some "0102",
         level4 := none, percentFromFund := some 10, extraData := none,
         reportDate := none, recordNo := none, totalRecords := none,
         managerNo := none }]) 1 "F").mp hne
  revert h
  decide

namespace Sampler

/-- The fields of `ExceptionRow` (`mizrahi_special_transactions.py`) that
`smart_sample_exceptions` reads: the stratum key `reason` and the dedup/sort
key `row.row_num`; `checkId` stands for the remaining payload. -/
structure ExcRow where
  checkId : String
  reason : String
  rowNum : Nat
deriving DecidableEq, Repr

/-- The type of one abstract `rng.sample` operation. -/
def SampleFn : Type := List ExcRow → Nat → List ExcRow

/-- The contract of `random.Random.sample(population, k)` for `k ≤ len`: the
result has length `k` and is a draw without replacement — a sub-permutation
of the population.  Every seeded generator satisfies this on every call, so
a statement quantified over all `ValidSampler`s covers every seed, and a
concrete `ValidSampler` exhibits one realizable draw behaviour. -/
def ValidSampler (s : SampleFn) : Prop :=
  ∀ l k, k ≤ l.length → (s l k).length = k ∧ List.Subperm (s l k) l

/-- The sampler that always draws the first `k` elements. -/
def takeSampler : SampleFn := fun l k => l.take k

theorem takeSampler_valid : ValidSampler takeSampler := by
  intro l k hk
  unfold takeSampler
  constructor
  · rw [List.length_take]
    omega
  · exact (List.take_sublist k l).subperm

/-- The keys of `by_reason` in insertion order (first occurrence of each
reason, as a `defaultdict` built over the exception list). -/
def reasonsAux (acc : List String) : List ExcRow → List String
  | [] => acc
  | e :: rest =>
    reasonsAux (if e.reason ∈ acc then acc else acc ++ [e.reason]) rest

def reasonsList (exs : List ExcRow) : List String := reasonsAux [] exs

/-- `by_reason[r]`: the stratum of a reason, in original order. -/
def stratum (exs : List ExcRow) (r : String) : List ExcRow :=
  exs.filter (fun e => e.reason == r)

/-- `target_count = max(1, int(proportion * max_count))`: the float product
`len(stratum)/total * max_count` truncated by `int(...)`, modelled as exact
rational arithmetic (`stratumLen * maxc / total` in floor division). -/
def targetCount (stratumLen total maxc : Nat) : Nat :=
  max 1 (stratumLen * maxc / total)

/-- One stratum's contribution to the first pass: the whole stratum when it
fits its target, otherwise a seeded draw of exactly the target size. -/
def strBlock (samp : SampleFn) (exs : List ExcRow) (maxc : Nat)
    (r : String) : List ExcRow :=
  let s := stratum exs r
  let target := targetCount s.length exs.length maxc
  if s.length ≤ target then s else samp s target

/-- The first pass of `smart_sample_exceptions`: proportional samples per
reason, in key order. -/
def firstPass (samp : SampleFn) (exs : List ExcRow) (maxc : Nat) :
    List ExcRow :=
  (reasonsList exs).flatMap (strBlock samp exs maxc)

/-- The fill step: when there is room left, draw the remainder from the
rows not yet sampled (keyed by `(row_num, reason)`). -/
def fillStep (samp : SampleFn) (exs : List ExcRow) (maxc : Nat)
    (sampled : List ExcRow) : List ExcRow :=
  if sampled.length < maxc then
    let keys := sampled.map (fun e => (e.rowNum, e.reason))
    let unsampled := exs.filter (fun e => decide ((e.rowNum, e.reason) ∉ keys))
    if unsampled.isEmpty then sampled
    else
      sampled ++ samp unsampled (min (maxc - sampled.length) unsampled.length)
  else sampled

/-- The draw-down step: when over budget, sample down to exactly
`max_count`. -/
def trimStep (samp : SampleFn) (maxc : Nat) (sampled : List ExcRow) :
    List ExcRow :=
  if maxc < sampled.length then samp sampled maxc else sampled

/-- `sampled.sort(key=lambda e: e.row.row_num)`: stable sort by row
number. -/
def sortByRow (l : List ExcRow) : List ExcRow :=
  K303.insertionSort (fun a b => decide (a.rowNum ≤ b.rowNum)) l

/-- `smart_sample_exceptions(exceptions, max_count, seed)`, with the seeded
generator abstracted into the sampler argument. -/
def smart_sample_exceptions (samp : SampleFn) (exs : List ExcRow)
    (maxc : Nat) : List ExcRow × Nat :=
  if exs.length ≤ maxc then (exs, exs.length)
  else
    (sortByRow (trimStep samp maxc
      (fillStep samp exs maxc (firstPass samp exs maxc))), exs.length)

end Sampler

namespace Sampler

theorem mem_reasonsAux (exs : List ExcRow) :
    ∀ (acc : List String) (r : String),
      r ∈ reasonsAux acc exs ↔ r ∈ acc ∨ ∃ e ∈ exs, e.reason = r := by
  induction exs with
  | nil =>
    intro acc r
    simp [reasonsAux]
  | cons e rest ih =>
    intro acc r
    unfold reasonsAux
    rw [ih]
    by_cases he : e.reason ∈ acc
    · rw [if_pos he]
      constructor
      · rintro (h | h)
        · exact Or.inl h
        · exact Or.inr (by
            obtain ⟨e', he', hr⟩ := h
            exact ⟨e', List.mem_cons_of_mem e he', hr⟩)
      · rintro (h | ⟨e', he', hr⟩)
        · exact Or.inl h
        · rcases List.mem_cons.mp he' with h' | h'
          · subst h'
            exact Or.inl (hr ▸ he)
          · exact Or.inr ⟨e', h', hr⟩
    · rw [if_neg he]
      constructor
      · rintro (h | h)
        · rcases List.mem_append.mp h with h' | h'
          · exact Or.inl h'
          · simp only [List.mem_singleton] at h'
            exact Or.inr ⟨e, List.mem_cons_self e rest, h'.symm⟩
        · obtain ⟨e', he', hr⟩ := h
          exact Or.inr ⟨e', List.mem_cons_of_mem e he', hr⟩
      · rintro (h | ⟨e', he', hr⟩)
        · exact Or.inl (List.mem_append.mpr (Or.inl h))
        · rcases List.mem_cons.mp he' with h' | h'
          · subst h'
            exact Or.inl (List.mem_append.mpr (Or.inr (by simp [hr])))
          · exact Or.inr ⟨e', h', hr⟩

theorem mem_reasonsList (exs : List ExcRow) (r : String) :
    r ∈ reasonsList exs ↔ ∃ e ∈ exs, e.reason = r := by
  unfold reasonsList
  rw [mem_reasonsAux]
  simp

theorem nodup_reasonsAux (exs : List ExcRow) :
    ∀ acc : List String, acc.Nodup → (reasonsAux acc exs).Nodup := by
  induction exs with
  | nil => intro acc h; exact h
  | cons e rest ih =>
    intro acc h
    unfold reasonsAux
    by_cases he : e.reason ∈ acc
    · rw [if_pos he]
      exact ih acc h
    · rw [if_neg he]
      refine ih _ ?_
      rw [List.nodup_append]
      exact ⟨h, List.nodup_singleton _, by simpa using he⟩

theorem nodup_reasonsList (exs : List ExcRow) : (reasonsList exs).Nodup :=
  nodup_reasonsAux exs [] List.nodup_nil

theorem stratum_reason (exs : List ExcRow) (r : String) :
    ∀ e ∈ stratum exs r, e.reason = r := by
  intro e he
  unfold stratum at he
  have := List.of_mem_filter he
  simpa using this

theorem stratum_ne_nil (exs : List ExcRow) (r : String)
    (hr : r ∈ reasonsList exs) : stratum exs r ≠ [] := by
  obtain ⟨e, he, hrr⟩ := (mem_reasonsList exs r).mp hr
  have : e ∈ stratum exs r := by
    unfold stratum
    exact List.mem_filter.mpr ⟨he, by simp [hrr]⟩
  exact List.ne_nil_of_mem this

theorem one_le_targetCount (stratumLen total maxc : Nat) :
    1 ≤ targetCount stratumLen total maxc := Nat.le_max_left 1 _

theorem strBlock_length (samp : SampleFn) (hvalid : ValidSampler samp)
    (exs : List ExcRow) (maxc : Nat) (r : String) :
    (strBlock samp exs maxc r).length =
      min (stratum exs r).length
        (targetCount (stratum exs r).length exs.length maxc) := by
  unfold strBlock
  by_cases h : (stratum exs r).length ≤
      targetCount (stratum exs r).length exs.length maxc
  · rw [if_pos h, Nat.min_eq_left h]
  · rw [if_neg h]
    have hlt : targetCount (stratum exs r).length exs.length maxc ≤
        (stratum exs r).length := Nat.le_of_not_le h |>.trans (le_refl _)
    rw [(hvalid _ _ hlt).1, Nat.min_eq_right hlt]

theorem strBlock_subperm (samp : SampleFn) (hvalid : ValidSampler samp)
    (exs : List ExcRow) (maxc : Nat) (r : String) :
    List.Subperm (strBlock samp exs maxc r) (stratum exs r) := by
  unfold strBlock
  by_cases h : (stratum exs r).length ≤
      targetCount (stratum exs r).length exs.length maxc
  · rw [if_pos h]
  · rw [if_neg h]
    exact (hvalid _ _ (Nat.le_of_not_le h)).2

theorem strBlock_reason (samp : SampleFn) (hvalid : ValidSampler samp)
    (exs : List ExcRow) (maxc : Nat) (r : String) :
    ∀ e ∈ strBlock samp exs maxc r, e.reason = r := by
  intro e he
  exact stratum_reason exs r e
    ((strBlock_subperm samp hvalid exs maxc r).subset he)

theorem firstPass_length (samp : SampleFn) (hvalid : ValidSampler samp)
    (exs : List ExcRow) (maxc : Nat) :
    (firstPass samp exs maxc).length =
      ((reasonsList exs).map (fun r =>
        min (stratum exs r).length
          (targetCount (stratum exs r).length exs.length maxc))).sum := by
  unfold firstPass
  rw [List.length_flatMap]
  congr 1
  apply List.map_congr_left
  intro r _
  exact strBlock_length samp hvalid exs maxc r

theorem firstPass_coverage (samp : SampleFn) (hvalid : ValidSampler samp)
    (exs : List ExcRow) (maxc : Nat) (r : String)
    (hr : r ∈ reasonsList exs) :
    ∃ e ∈ firstPass samp exs maxc, e.reason = r := by
  have hlen : 1 ≤ (strBlock samp exs maxc r).length := by
    rw [strBlock_length samp hvalid exs maxc r]
    have h1 : 1 ≤ (stratum exs r).length :=
      List.length_pos.mpr (stratum_ne_nil exs r hr)
    have h2 : 1 ≤ targetCount (stratum exs r).length exs.length maxc :=
      one_le_targetCount _ _ _
    omega
  obtain ⟨e, he⟩ := List.exists_mem_of_ne_nil _
    (List.ne_nil_of_length_pos hlen)
  refine ⟨e, ?_, strBlock_reason samp hvalid exs maxc r e he⟩
  unfold firstPass
  exact List.mem_flatMap.mpr ⟨r, hr, he⟩

theorem filter_not_length {α : Type} (p : α → Bool) (l : List α) :
    (l.filter p).length + (l.filter (fun e => !(p e))).length = l.length := by
  induction l with
  | nil => rfl
  | cons a rest ih =>
    cases h : p a
    · rw [List.filter_cons_of_neg (by simp [h]),
        List.filter_cons_of_pos (by simp [h])]
      simp only [List.length_cons]
      omega
    · rw [List.filter_cons_of_pos (by simp [h]),
        List.filter_cons_of_neg (by simp [h])]
      simp only [List.length_cons]
      omega

theorem length_filter_key_mem_le (exs : List ExcRow)
    (K : List (Nat × String))
    (hnd : (exs.map (fun e => (e.rowNum, e.reason))).Nodup) :
    (exs.filter (fun e => decide ((e.rowNum, e.reason) ∈ K))).length ≤
      K.length := by
  set l := (exs.filter
    (fun e => decide ((e.rowNum, e.reason) ∈ K))).map
      (fun e => (e.rowNum, e.reason)) with hl
  have hlen : l.length = (exs.filter
      (fun e => decide ((e.rowNum, e.reason) ∈ K))).length := by
    rw [hl, List.length_map]
  have hnd' : l.Nodup := by
    rw [hl]
    exact List.Nodup.sublist
      ((List.filter_sublist exs).map (fun e => (e.rowNum, e.reason))) hnd
  have hsub : l ⊆ K := by
    intro x hx
    rw [hl] at hx
    obtain ⟨e, he, hxe⟩ := List.mem_map.mp hx
    have := List.of_mem_filter he
    rw [← hxe]
    simpa using this
  rw [← hlen]
  exact (hnd'.subperm hsub).length_le

end Sampler

namespace Sampler

theorem fillStep_spec (samp : SampleFn) (hvalid : ValidSampler samp)
    (exs : List ExcRow) (maxc : Nat) (sampled : List ExcRow)
    (hgt : maxc < exs.length)
    (hkeys : (exs.map (fun e => (e.rowNum, e.reason))).Nodup)
    (hs : sampled.length ≤ maxc) :
    (fillStep samp exs maxc sampled).length = maxc ∧
    ∃ t, fillStep samp exs maxc sampled = sampled ++ t := by
  unfold fillStep
  by_cases hlt : sampled.length < maxc
  · rw [if_pos hlt]
    have hsplit := filter_not_length
      (fun e => decide ((e.rowNum, e.reason) ∈
        sampled.map (fun e => (e.rowNum, e.reason)))) exs
    have hcongr : exs.filter (fun e => decide ((e.rowNum, e.reason) ∉
        sampled.map (fun e => (e.rowNum, e.reason)))) =
        exs.filter (fun e => !(decide ((e.rowNum, e.reason) ∈
          sampled.map (fun e => (e.rowNum, e.reason))))) := by
      apply List.filter_congr
      intro e _
      rw [decide_not]
    have hmemle := length_filter_key_mem_le exs
      (sampled.map (fun e => (e.rowNum, e.reason))) hkeys
    rw [List.length_map] at hmemle
    have hun : maxc - sampled.length ≤ (exs.filter
        (fun e => decide ((e.rowNum, e.reason) ∉
          sampled.map (fun e => (e.rowNum, e.reason))))).length := by
      rw [hcongr]
      omega
    have hne : (exs.filter (fun e => decide ((e.rowNum, e.reason) ∉
        sampled.map (fun e => (e.rowNum, e.reason))))).isEmpty = false := by
      have hpos : 0 < (exs.filter (fun e => decide ((e.rowNum, e.reason) ∉
          sampled.map (fun e => (e.rowNum, e.reason))))).length := by omega
      cases hcase : exs.filter (fun e => decide ((e.rowNum, e.reason) ∉
          sampled.map (fun e => (e.rowNum, e.reason)))) with
      | nil => rw [hcase] at hpos; simp at hpos
      | cons a l => rfl
    simp only [hne, Bool.false_eq_true, if_false]
    have hk : min (maxc - sampled.length)
        (exs.filter (fun e => decide ((e.rowNum, e.reason) ∉
          sampled.map (fun e => (e.rowNum, e.reason))))).length =
        maxc - sampled.length := min_eq_left hun
    constructor
    · rw [List.length_append, (hvalid _ _ (min_le_right _ _)).1, hk]
      omega
    · exact ⟨_, rfl⟩
  · rw [if_neg hlt]
    exact ⟨by omega, [], by rw [List.append_nil]⟩

theorem trimStep_of_le (samp : SampleFn) (maxc : Nat)
    (sampled : List ExcRow) (h : sampled.length ≤ maxc) :
    trimStep samp maxc sampled = sampled := by
  unfold trimStep
  rw [if_neg (by omega)]

theorem sortByRow_perm (l : List ExcRow) : (sortByRow l).Perm l :=
  K303.insertionSort_perm _ l

end Sampler

/-- **C1**, amended (Stratified sampler coverage).  For every exception list
longer than `max_count`, every draw behaviour of the seeded generator
(`ValidSampler`), whenever the per-stratum first-pass allocations
(`min(stratum size, target)`) sum to at most `max_count` and the
`(row_num, reason)` dedup keys are pairwise distinct, the returned sample
contains at least one exception of every distinct reason and has length
exactly `max_count`, and the reported original count is the input length.
The original claim's hypothesis — merely `max_count ≥` the number of
distinct reasons — is not sufficient: when the minimum-one allocations
overshoot `max_count`, the final draw-down samples uniformly from the
assembled set and can annihilate a stratum (see the counterexample). -/
theorem sampler_coverage (samp : Sampler.SampleFn)
    (hvalid : Sampler.ValidSampler samp) (exs : List Sampler.ExcRow)
    (maxc : Nat) (hgt : maxc < exs.length)
    (hkeys : (exs.map (fun e => (e.rowNum, e.reason))).Nodup)
    (hno : ((Sampler.reasonsList exs).map (fun r =>
      min (Sampler.stratum exs r).length
        (Sampler.targetCount (Sampler.stratum exs r).length exs.length
          maxc))).sum ≤ maxc) :
    (∀ r ∈ Sampler.reasonsList exs,
      ∃ e ∈ (Sampler.smart_sample_exceptions samp exs maxc).1,
        e.reason = r) ∧
    (Sampler.smart_sample_exceptions samp exs maxc).1.length = maxc ∧
    (Sampler.smart_sample_exceptions samp exs maxc).2 = exs.length := by
  have hfp : (Sampler.firstPass samp exs maxc).length ≤ maxc := by
    rw [Sampler.firstPass_length samp hvalid exs maxc]
    exact hno
  obtain ⟨hfl, t, hft⟩ := Sampler.fillStep_spec samp hvalid exs maxc
    (Sampler.firstPass samp exs maxc) hgt hkeys hfp
  have htrim : Sampler.trimStep samp maxc
      (Sampler.fillStep samp exs maxc (Sampler.firstPass samp exs maxc)) =
      Sampler.fillStep samp exs maxc (Sampler.firstPass samp exs maxc) :=
    Sampler.trimStep_of_le samp maxc _ (le_of_eq hfl)
  have hres : Sampler.smart_sample_exceptions samp exs maxc =
      (Sampler.sortByRow (Sampler.fillStep samp exs maxc
        (Sampler.firstPass samp exs maxc)), exs.length) := by
    unfold Sampler.smart_sample_exceptions
    rw [if_neg (by omega), htrim]
  rw [hres]
  refine ⟨?_, ?_, rfl⟩
  · intro r hr
    obtain ⟨e, he, hre⟩ := Sampler.firstPass_coverage samp hvalid exs maxc
      r hr
    refine ⟨e, ?_, hre⟩
    rw [(Sampler.sortByRow_perm _).mem_iff, hft]
    exact List.mem_append.mpr (Or.inl he)
  · rw [(Sampler.sortByRow_perm _).length_eq]
    exact hfl

/-- Witness for `sampler_coverage`: eight exceptions over reasons
`{A:4, B:4}` sampled down to 4 — each stratum's allocation is 2, the
allocations sum to the budget, and both reasons survive with exactly 4
exceptions returned. -/
theorem sampler_coverage_witness :
    0 < (Sampler.smart_sample_exceptions Sampler.takeSampler
        [⟨"", "A", 1⟩, ⟨"", "A", 2⟩, ⟨"", "A", 3⟩, ⟨"", "A", 4⟩,
         ⟨"", "B", 5⟩, ⟨"", "B", 6⟩, ⟨"", "B", 7⟩, ⟨"", "B", 8⟩]
        4).1.countP (fun e => e.reason == "B") ∧
    (Sampler.smart_sample_exceptions Sampler.takeSampler
        [⟨"", "A", 1⟩, ⟨"", "A", 2⟩, ⟨"", "A", 3⟩, ⟨"", "A", 4⟩,
         ⟨"", "B", 5⟩, ⟨"", "B", 6⟩, ⟨"", "B", 7⟩, ⟨"", "B", 8⟩]
        4).1.length = 4 := by
  have h := sampler_coverage Sampler.takeSampler Sampler.takeSampler_valid
    [⟨"", "A", 1⟩, ⟨"", "A", 2⟩, ⟨"", "A", 3⟩, ⟨"", "A", 4⟩,
     ⟨"", "B", 5⟩, ⟨"", "B", 6⟩, ⟨"", "B", 7⟩, ⟨"", "B", 8⟩]
    4 (by decide) (by decide) (by decide)
  constructor
  · rw [List.countP_pos_iff]
    obtain ⟨e, he, hre⟩ := h.1 "B" (by decide)
    exact ⟨e, he, by simp [hre]⟩
  · exact h.2.1

namespace Sampler

/-- A generic keyed-filter lemma: filtering a per-reason flatMap by one of
the (distinct) reasons recovers that reason's block. -/
theorem filter_flatMap_reason (g : String → List ExcRow)
    (hg : ∀ k, ∀ e ∈ g k, e.reason = k) (r : String) :
    ∀ ks : List String, ks.Nodup → r ∈ ks →
      (ks.flatMap g).filter (fun e => e.reason == r) = g r := by
  intro ks
  induction ks with
  | nil => intro _ hr; exact absurd hr (List.not_mem_nil r)
  | cons k rest ih =>
    intro hnd hr
    rw [List.nodup_cons] at hnd
    rw [List.flatMap_cons, List.filter_append]
    rcases List.mem_cons.mp hr with hk | hk
    · subst hk
      have h1 : (g r).filter (fun e => e.reason == r) = g r := by
        rw [List.filter_eq_self]
        intro e he
        simp [hg r e he]
      have h2 : (rest.flatMap g).filter (fun e => e.reason == r) = [] := by
        rw [List.filter_eq_nil_iff]
        intro e he
        obtain ⟨k', hk', he'⟩ := List.mem_flatMap.mp he
        rw [hg k' e he']
        simp only [beq_iff_eq]
        intro hcontra
        exact hnd.1 (hcontra ▸ hk')
      rw [h1, h2, List.append_nil]
    · have h1 : (g k).filter (fun e => e.reason == r) = [] := by
        rw [List.filter_eq_nil_iff]
        intro e he
        rw [hg k e he]
        simp only [beq_iff_eq]
        intro hcontra
        exact hnd.1 (hcontra ▸ hk)
      rw [h1, List.nil_append]
      exact ih hnd.2 hk

theorem filter_firstPass (samp : SampleFn) (hvalid : ValidSampler samp)
    (exs : List ExcRow) (maxc : Nat) (r : String)
    (hr : r ∈ reasonsList exs) :
    (firstPass samp exs maxc).filter (fun e => e.reason == r) =
      strBlock samp exs maxc r := by
  unfold firstPass
  exact filter_flatMap_reason (strBlock samp exs maxc)
    (strBlock_reason samp hvalid exs maxc) r (reasonsList exs)
    (nodup_reasonsList exs) hr

/-- Sixteen exceptions: one stratum of nine `R0` rows and seven singleton
strata `R1`–`R7`; used to exhibit allocation overshoot. -/
def exsC1 : List ExcRow :=
  [⟨"", "R0", 1⟩, ⟨"", "R0", 2⟩, ⟨"", "R0", 3⟩, ⟨"", "R0", 4⟩,
   ⟨"", "R0", 5⟩, ⟨"", "R0", 6⟩, ⟨"", "R0", 7⟩, ⟨"", "R0", 8⟩,
   ⟨"", "R0", 9⟩, ⟨"", "R1", 10⟩, ⟨"", "R2", 11⟩, ⟨"", "R3", 12⟩,
   ⟨"", "R4", 13⟩, ⟨"", "R5", 14⟩, ⟨"", "R6", 15⟩, ⟨"", "R7", 16⟩]

/-- Sixteen exceptions over two strata `X:11`, `Y:5`; used to exhibit the
truncation-versus-rounding allocation. -/
def exsC4 : List ExcRow :=
  [⟨"", "X", 1⟩, ⟨"", "X", 2⟩, ⟨"", "X", 3⟩, ⟨"", "X", 4⟩, ⟨"", "X", 5⟩,
   ⟨"", "X", 6⟩, ⟨"", "X", 7⟩, ⟨"", "X", 8⟩, ⟨"", "X", 9⟩, ⟨"", "X", 10⟩,
   ⟨"", "X", 11⟩, ⟨"", "Y", 12⟩, ⟨"", "Y", 13⟩, ⟨"", "Y", 14⟩,
   ⟨"", "Y", 15⟩, ⟨"", "Y", 16⟩]

/-- Four exceptions over strata `X:3`, `Y:1`. -/
def exsW4 : List ExcRow :=
  [⟨"", "X", 1⟩, ⟨"", "X", 2⟩, ⟨"", "X", 3⟩, ⟨"", "Y", 4⟩]

end Sampler

/-- Counterexample to **C1** as stated: 16 exceptions over 8 reasons
(`R0:9`, `R1..R7:1` each) sampled down to `max_count = 8`, so
`max_count ≥` the number of distinct reasons; the first-pass allocations
(4 + 7·1 = 11) overshoot the budget, the final draw-down keeps the first 8
of the assembled 11 — a draw the seeded generator can realize — and reason
`R5` is annihilated from the output. -/
theorem sampler_coverage_cx :
    Sampler.ValidSampler Sampler.takeSampler ∧
    Sampler.exsC1.length = 16 ∧
    (Sampler.reasonsList Sampler.exsC1).length = 8 ∧
    "R5" ∈ Sampler.reasonsList Sampler.exsC1 ∧
    (Sampler.smart_sample_exceptions Sampler.takeSampler Sampler.exsC1
        8).1.countP (fun e => e.reason == "R5") = 0 := by
  exact ⟨Sampler.takeSampler_valid, by decide, by decide, by decide,
    by decide⟩

/-- **C4**, amended (per-stratum allocation).  When the input exceeds
`max_count`, each non-empty reason stratum is allocated the target
`max(1, ⌊stratumSize · max_count / totalSize⌋)` — the `int(...)` truncation
of the proportional share, not `round(...)` (see the counterexample) — the
stratum is taken whole if its size is at most the target, and otherwise the
first pass draws exactly the target number of its exceptions, without
replacement, through the seeded generator. -/
theorem sampler_allocation (samp : Sampler.SampleFn)
    (hvalid : Sampler.ValidSampler samp) (exs : List Sampler.ExcRow)
    (maxc : Nat) (hgt : maxc < exs.length) :
    ∀ r ∈ Sampler.reasonsList exs,
      ((Sampler.firstPass samp exs maxc).filter
          (fun e => e.reason == r)).length =
        min (Sampler.stratum exs r).length
          (max 1 ((Sampler.stratum exs r).length * maxc / exs.length)) ∧
      List.Subperm ((Sampler.firstPass samp exs maxc).filter
          (fun e => e.reason == r)) (Sampler.stratum exs r) ∧
      ((Sampler.stratum exs r).length ≤
          max 1 ((Sampler.stratum exs r).length * maxc / exs.length) →
        (Sampler.firstPass samp exs maxc).filter (fun e => e.reason == r) =
          Sampler.stratum exs r) := by
  intro r hr
  rw [Sampler.filter_firstPass samp hvalid exs maxc r hr]
  refine ⟨Sampler.strBlock_length samp hvalid exs maxc r,
    Sampler.strBlock_subperm samp hvalid exs maxc r, ?_⟩
  intro hfit
  simp only [Sampler.strBlock, Sampler.targetCount]
  rw [if_pos hfit]

/-- Witness for `sampler_allocation`: strata `X:3`, `Y:1` with
`max_count = 2` — stratum `X` is allocated `max(1, ⌊3·2/4⌋) = 1` and exactly
one of its exceptions is drawn. -/
theorem sampler_allocation_witness :
    ((Sampler.firstPass Sampler.takeSampler Sampler.exsW4 2).filter
        (fun e => e.reason == "X")).length = 1 ∧
    min 3 (max 1 (3 * 2 / 4)) = 1 := by
  constructor
  · rw [(sampler_allocation Sampler.takeSampler Sampler.takeSampler_valid
      Sampler.exsW4 2 (by decide) "X" (by decide)).1]
    decide
  · decide

/-- Counterexample to **C4** as stated: strata `X:11`, `Y:5` with
`max_count = 4` — the claim's `round`-based allocation gives stratum `X` a
target of `round(11·4/16) = round(2.75) = 3`, but the code's `int(...)`
truncation allocates `⌊2.75⌋ = 2`, and the first pass draws exactly 2 `X`
exceptions. -/
theorem sampler_allocation_cx :
    Sampler.ValidSampler Sampler.takeSampler ∧
    (Sampler.stratum Sampler.exsC4 "X").length = 11 ∧
    Sampler.exsC4.length = 16 ∧
    ((Sampler.firstPass Sampler.takeSampler Sampler.exsC4 4).filter
        (fun e => e.reason == "X")).length = 2 ∧
    (max 1 (round ((11 * 4 : ℚ) / 16)) : ℤ) = 3 := by
  refine ⟨Sampler.takeSampler_valid, by decide, by decide, by decide, ?_⟩
  have h : round ((11 * 4 : ℚ) / 16) = 3 := by
    rw [round_eq]
    norm_num
  rw [h]
  decide
